import Mathlib

/-!
Verification development for the llm-visibility-optimizer scoring engine.

This file gives a shallow embedding, in Lean 4, of the content-extraction
and scoring core of the repository (src/src/lib/schema-generator.ts and the
aggregation slice of src/src/app/api/analyze/route.ts), and proves or
refutes the specification claims about it.

Modelling conventions:
  * JavaScript strings are Lean `String`s (ASCII paths/texts; `toLowerCase`
    is modelled by `Char.toLower`, which agrees on ASCII).
  * JavaScript numbers that carry prices/ratings are modelled as `ℚ`
    (the source only ever produces finite decimal values via `parseFloat`
    on digit/dot strings, so no floating-point behaviour is lost on the
    inputs considered here).
  * `null`/`undefined` are modelled with `Option`; JavaScript truthiness of
    a string is "non-empty", of a number is "non-zero".
  * Thrown exceptions (`new URL(...)` on an unparsable URL) are modelled
    with `Except String`; per spec section 4.1 an unparsable URL is
    propagated, not swallowed.
  * Regular expressions from the source are embedded as explicit scanning
    functions; each is documented with the regex it implements and follows
    JavaScript leftmost-match, ordered-alternation, greedy semantics.
-/

namespace LVO

/-! ## Character and string helpers (JavaScript semantics) -/

/-- JavaScript `\s` restricted to ASCII: space, tab, newline, carriage
return, vertical tab, form feed. -/
def isWsJS (c : Char) : Bool :=
  c = ' ' || c = '\t' || c = '\n' || c = '\r' || c.toNat = 11 || c.toNat = 12

/-- JavaScript `\w`: ASCII letters, digits, underscore. -/
def isWordC (c : Char) : Bool :=
  c.isAlphanum || c = '_'

/-- Lowercasing a string character-wise (JavaScript `toLowerCase` on ASCII). -/
def lowerS (s : String) : String :=
  ⟨s.data.map Char.toLower⟩

/-- Does the haystack start with the needle (both as char lists)? -/
def startsC : List Char → List Char → Bool
  | [], _ => true
  | _ :: _, [] => false
  | n :: ns, h :: hs => n = h && startsC ns hs

/-- Case-insensitive `startsC`. -/
def startsCI : List Char → List Char → Bool
  | [], _ => true
  | _ :: _, [] => false
  | n :: ns, h :: hs => n.toLower = h.toLower && startsCI ns hs

/-- Substring containment on char lists (JavaScript `String.includes`). -/
def hasSub (needle : List Char) : List Char → Bool
  | [] => startsC needle []
  | c :: rest => startsC needle (c :: rest) || hasSub needle rest

/-- `hay.includes(needle)` for strings. -/
def strIncludes (hay needle : String) : Bool :=
  hasSub needle.data hay.data

/-- `s.startsWith(pre)` for strings. -/
def startsWithS (s pre : String) : Bool :=
  startsC pre.data s.data

/-- Split a string at every occurrence of a character (JavaScript
`split(sep)` for a one-character separator, which is every split the
source performs): empty segments are kept, and splitting the empty string
yields one empty segment. -/
def splitChAux (sep : Char) : List Char → List Char → List String
  | acc, [] => [⟨acc.reverse⟩]
  | acc, c :: r =>
    if c = sep then (⟨acc.reverse⟩ : String) :: splitChAux sep [] r
    else splitChAux sep (c :: acc) r

/-- See `splitChAux`. -/
def splitCh (sep : Char) (s : String) : List String :=
  splitChAux sep [] s.data

/-- Scan a char list left to right and return the first position where the
matcher succeeds (JavaScript leftmost-match semantics). -/
def scanF {α : Type} (f : List Char → Option α) : List Char → Option α
  | [] => f []
  | c :: rest =>
    match f (c :: rest) with
    | some r => some r
    | none => scanF f rest

/-- Scan left to right, providing the previous character (for `\b` word
boundaries); the first matching position wins. -/
def scanP {α : Type} (f : Option Char → List Char → Option α) :
    Option Char → List Char → Option α
  | prev, [] => f prev []
  | prev, c :: rest =>
    match f prev (c :: rest) with
    | some r => some r
    | none => scanP f (some c) rest

/-- JavaScript `String.trim` (ASCII whitespace). -/
def trimJS (s : String) : String :=
  ⟨(s.data.dropWhile isWsJS).reverse.dropWhile isWsJS |>.reverse⟩

/-- JavaScript truthiness of a nullable string: non-null and non-empty. -/
def truthyOS : Option String → Bool
  | some s => s ≠ ""
  | none => false

/-- JavaScript truthiness of a nullable number: non-null and non-zero. -/
def truthyOQ : Option ℚ → Bool
  | some q => q ≠ 0
  | none => false

/-- JavaScript `a || b` on nullable numbers (`0` is falsy). -/
def jsOrQ (a b : Option ℚ) : Option ℚ :=
  if truthyOQ a then a else if truthyOQ b then b else none

/-- JavaScript `a || b` on plain numbers (`0` is falsy). -/
def jsOrNat (a b : Nat) : Nat :=
  if a ≠ 0 then a else b

/-- JavaScript `a || b` where `a` is a nullable string and `b` a default
(the empty string is falsy). -/
def jsOrStr (a : Option String) (b : String) : String :=
  match a with
  | some s => if s ≠ "" then s else b
  | none => b

/-- JavaScript `Math.round` on a rational: `⌊q + 1/2⌋` (`Math.round` rounds
half towards positive infinity), computed on the normalized fraction as
`⌊(2 num + den) / (2 den)⌋`. -/
def jsRound (q : ℚ) : ℤ :=
  Int.fdiv (2 * q.num + (q.den : ℤ)) (2 * (q.den : ℤ))

/-! ## JavaScript numeric parsing -/

/-- Value of a list of decimal digits. -/
def digitsVal (l : List Char) : Nat :=
  l.foldl (fun acc c => acc * 10 + (c.toNat - '0'.toNat)) 0

/-- JavaScript `parseFloat` restricted to the strings the source feeds it
(digits and dots, as produced by `replace(/[^0-9.]/g, "")`, or star glyphs):
an optional integer part, an optional single dot with a fractional part; the
rest is ignored; `none` models `NaN` (no digits at all). -/
def parseFloatJS (s : String) : Option ℚ :=
  let l := s.data.dropWhile isWsJS
  let intPart := l.takeWhile Char.isDigit
  let rest := l.drop intPart.length
  let fracPart :=
    match rest with
    | '.' :: r => r.takeWhile Char.isDigit
    | _ => []
  if intPart.isEmpty && fracPart.isEmpty then none
  else
    -- intPart + fracPart / 10^k, written as a single normalized fraction
    some (mkRat (digitsVal intPart * 10 ^ fracPart.length + digitsVal fracPart)
      (10 ^ fracPart.length))

/-- JavaScript `parseInt` on the digit strings the source feeds it: the
leading digit run; `none` models `NaN`. -/
def parseIntJS (s : String) : Option Nat :=
  let ds := s.data.takeWhile Char.isDigit
  if ds.isEmpty then none else some (digitsVal ds)

/-! ## URL parsing

The WHATWG `URL` constructor is an external platform collaborator (spec
section 2 treats HTML/URL parsing as out of scope for the core).  We model
the fragment of it the core relies on: an absolute http(s) URL splits into
an origin, a hostname and a pathname (query and fragment stripped, empty
path becoming "/"); anything else — in particular the empty string — fails
to parse, which the source observes as a thrown `TypeError`. -/

structure URLParts where
  origin : String
  hostname : String
  pathname : String
  deriving Repr, DecidableEq

/-- Parse an absolute http(s) URL into origin/hostname/pathname; `none`
models the `TypeError` thrown by `new URL(...)` on anything else
(notably the empty string). -/
def parseURL (url : String) : Option URLParts :=
  let tryScheme (scheme : String) : Option URLParts :=
    if startsC scheme.data url.data then
      let rest := url.drop scheme.length
      let host : List Char := rest.data.takeWhile (fun c => c ≠ '/' && c ≠ '?' && c ≠ '#')
      if host.isEmpty then none
      else
        let tail := rest.data.drop host.length
        let path := tail.takeWhile (fun c => c ≠ '?' && c ≠ '#')
        some { origin := scheme ++ ⟨host⟩
               hostname := ⟨host⟩
               pathname := if path.isEmpty then "/" else ⟨path⟩ }
    else none
  match tryScheme "https://" with
  | some p => some p
  | none => tryScheme "http://"

/-- `new URL(url)` as an `Except`: an unparsable URL is a propagated error
(spec section 4.1 / section 7(a)). -/
def parseURLE (url : String) : Except String URLParts :=
  match parseURL url with
  | some p => Except.ok p
  | none => Except.error ("TypeError: Invalid URL: " ++ url)

/-! ## Data model (src/src/lib/types.ts)

Structures mirror the TypeScript interfaces, restricted to the fields the
embedded functions read.  `PageAnalysis.semanticElements` is a
`Record<string, number>` of which only the keys `table`, `ul`, `ol` are
ever read (detectSpecifications), so it is modelled by those three counts.
`openGraph` is a `Record<string, string>` modelled as an association list
(property access `og.title` / `og.image` = lookup). -/

/-- One embedded structured-data object, modelled by the properties the
source ever probes on it: `gtin`/`gtin13`/`gtin14`/`gtin8`/`mpn`/`sku`/
`productID` (extractIdentifiers, schema-generator.ts lines 1620-1631) plus
the offer `price` it may carry, which lets us state whether any function
reads it.  Values are strings (the source coerces with `String(...)`). -/
structure JsonLdObj where
  gtin : Option String := none
  gtin13 : Option String := none
  gtin14 : Option String := none
  gtin8 : Option String := none
  mpn : Option String := none
  sku : Option String := none
  productID : Option String := none
  price : Option String := none
  deriving Repr, DecidableEq

/-- `PageAnalysis.schemas` (types.ts lines 313-323). -/
structure Schemas where
  hasProductSchema : Bool := false
  hasOrganizationSchema : Bool := false
  hasFAQSchema : Bool := false
  hasBreadcrumbSchema : Bool := false
  hasReviewSchema : Bool := false
  hasAggregateRating : Bool := false
  hasArticleSchema : Bool := false
  hasAuthorSchema : Bool := false
  hasOfferSchema : Bool := false
  deriving Repr, DecidableEq

/-- `PageAnalysis.reviews` (types.ts lines 326-331). -/
structure Reviews where
  hasReviews : Bool := false
  reviewCount : Nat := 0
  averageRating : Option ℚ := none
  ratingCount : Nat := 0
  deriving Repr, DecidableEq

/-- `PageAnalysis.images` (types.ts line 309). -/
structure Images where
  total : Nat := 0
  withAlt : Nat := 0
  withoutAlt : Nat := 0
  deriving Repr, DecidableEq

/-- `PageAnalysis.headings` (types.ts line 307). -/
structure Headings where
  h1 : Nat := 0
  h2 : Nat := 0
  h3 : Nat := 0
  h4 : Nat := 0
  h5 : Nat := 0
  h6 : Nat := 0
  deriving Repr, DecidableEq

/-- The three keys of `semanticElements` read by detectSpecifications. -/
structure SemanticElements where
  table : Nat := 0
  ul : Nat := 0
  ol : Nat := 0
  deriving Repr, DecidableEq

/-- `PageType` (types.ts lines 18-25). -/
inductive PageType where
  | product | collection | blog | homepage | search | cart | other
  deriving Repr, DecidableEq

/-- String form of a page type, as the TypeScript enum literal. -/
def PageType.str : PageType → String
  | .product => "product"
  | .collection => "collection"
  | .blog => "blog"
  | .homepage => "homepage"
  | .search => "search"
  | .cart => "cart"
  | .other => "other"

/-- `ContentExtraction.productName` (types.ts). -/
structure CEName where
  value : Option String := none
  source : Option String := none
  deriving Repr, DecidableEq

/-- `ContentExtraction.price`. -/
structure CEPrice where
  value : Option ℚ := none
  currency : Option String := none
  source : Option String := none
  rawText : Option String := none
  deriving Repr, DecidableEq

/-- `ContentExtraction.availability`. -/
structure CEAvailability where
  status : String := "unknown"
  source : Option String := none
  rawText : Option String := none
  deriving Repr, DecidableEq

/-- `ContentExtraction.rating`. -/
structure CERating where
  value : Option ℚ := none
  maxRating : Nat := 5
  count : Nat := 0
  source : Option String := none
  rawText : Option String := none
  deriving Repr, DecidableEq

/-- `ContentExtraction.brand`. -/
structure CEBrand where
  value : Option String := none
  source : Option String := none
  deriving Repr, DecidableEq

/-- `ContentExtraction.category`. -/
structure CECategory where
  value : Option String := none
  source : Option String := none
  deriving Repr, DecidableEq

/-- `ContentExtraction.specifications`. -/
structure CESpecs where
  detected : Bool := false
  count : Nat := 0
  source : Option String := none
  deriving Repr, DecidableEq

/-- `ContentExtraction.images`. -/
structure CEImages where
  count : Nat := 0
  hasAlt : Nat := 0
  productImages : Nat := 0
  deriving Repr, DecidableEq

/-- `ContentExtraction.purchaseCTA`. -/
structure CECta where
  detected : Bool := false
  buttons : List String := []
  deriving Repr, DecidableEq

/-- `ContentExtraction` (types.ts lines 31-94). -/
structure ContentExtraction where
  productName : CEName := {}
  price : CEPrice := {}
  availability : CEAvailability := {}
  rating : CERating := {}
  brand : CEBrand := {}
  category : CECategory := {}
  specifications : CESpecs := {}
  images : CEImages := {}
  purchaseCTA : CECta := {}
  deriving Repr, DecidableEq

/-- `PageAnalysis` (types.ts lines 302-371), restricted to the fields read
by the embedded functions (the derived `score`/`scoreBreakdown`/`author`
and the unused parts of `freshness` are omitted; `freshnessStatus` is
`freshness.status`). -/
structure Page where
  url : String := ""
  title : String := ""
  metaDescription : String := ""
  jsonLdScripts : List JsonLdObj := []
  openGraph : List (String × String) := []
  headings : Headings := {}
  h1Texts : List String := []
  images : Images := {}
  semanticElements : SemanticElements := {}
  wordCount : Nat := 0
  schemas : Schemas := {}
  reviews : Reviews := {}
  quoteReadySnippets : List String := []
  freshnessStatus : String := "unknown"
  links : List String := []
  internalLinks : Nat := 0
  externalLinks : Nat := 0
  contentExtraction : Option ContentExtraction := none
  pageType : Option PageType := none
  breadcrumbs : List String := []
  deriving Repr, DecidableEq

/-- Lookup in an `openGraph` record (property access on a JS object). -/
def ogGet (og : List (String × String)) (key : String) : Option String :=
  (og.find? (fun kv => kv.1 = key)).map (·.2)

/-! ## Price extraction (schema-generator.ts lines 116-175)

`extractPriceFromText` tries four regex families over the text, in order;
within a family the leftmost match wins; a match only counts if its numeric
value is positive, otherwise the next family is tried. -/

/-- The `currencySymbols` table (lines 120-131), in object-literal insertion
order, which is the order `Object.entries` iterates it. -/
def currencySymbols : List (String × String) :=
  [("$", "USD"), ("₹", "INR"), ("€", "EUR"), ("£", "GBP"), ("¥", "JPY"),
   ("₽", "RUB"), ("₩", "KRW"), ("A$", "AUD"), ("C$", "CAD"), ("HK$", "HKD")]

/-- Single-char currency symbols of the class `[$₹€£¥₽₩]`. -/
def isCurSym (c : Char) : Bool :=
  c = '$' || c = '₹' || c = '€' || c = '£' || c = '¥' || c = '₽' || c = '₩'

/-- Match `[\d,]+(?:\.\d{2})?` at the head of the list; returns the matched
chars and the rest.  Greedy digits/commas, then an optional dot with exactly
two digits, exactly as the JavaScript regex backtracks. -/
def matchNum (l : List Char) : Option (List Char × List Char) :=
  let ds := l.takeWhile (fun c => c.isDigit || c = ',')
  if ds.isEmpty then none
  else
    let rest := l.drop ds.length
    match rest with
    | '.' :: a :: b :: r2 =>
      if a.isDigit && b.isDigit then some (ds ++ ['.', a, b], r2)
      else some (ds, rest)
    | _ => some (ds, rest)

/-- A price-pattern hit: the full match (`match[0]`) and the second capture
group (`match[2]`) when the pattern has one. -/
structure PriceHit where
  raw : List Char
  g2 : Option (List Char)

/-- Pattern 1 at a position: `([$₹€£¥₽₩]|A\$|C\$|HK\$)\s*([\d,]+(?:\.\d{2})?)`
(line 136); `match[2]` is the number group. -/
def pricePat1At (l : List Char) : Option PriceHit := do
  let (sym, r1) ←
    match l with
    | c :: rest =>
      if isCurSym c then some ([c], rest)
      else if startsC ['A', '$'] l then some (['A', '$'], l.drop 2)
      else if startsC ['C', '$'] l then some (['C', '$'], l.drop 2)
      else if startsC ['H', 'K', '$'] l then some (['H', 'K', '$'], l.drop 3)
      else none
    | [] => none
  let ws := r1.takeWhile isWsJS
  let (num, _) ← matchNum (r1.drop ws.length)
  pure { raw := sym ++ ws ++ num, g2 := some num }

/-- The ISO codes of pattern 2's alternation, in regex order. -/
def isoCodes : List String :=
  ["USD", "INR", "EUR", "GBP", "JPY", "AUD", "CAD", "HKD"]

/-- Pattern 2 at a position: `([\d,]+(?:\.\d{2})?)\s*(USD|INR|...)/i`
(line 138); `match[2]` is the currency code as it appears in the text. -/
def pricePat2At (l : List Char) : Option PriceHit := do
  let (num, r1) ← matchNum l
  let ws := r1.takeWhile isWsJS
  let r2 := r1.drop ws.length
  let code ← isoCodes.findSome? fun code =>
    if startsCI code.data r2 then some (r2.take code.length) else none
  pure { raw := num ++ ws ++ code, g2 := some code }

/-- Labels of pattern 3's first alternation, in regex order. -/
def priceLabels : List String :=
  ["Price", "MRP", "Cost", "Sale", "Our Price"]

/-- Match the symbol alternation `([$₹€£¥]|Rs\.?)/i` at the head. -/
def priceSymAt (l : List Char) : Option (List Char × List Char) :=
  match l with
  | c :: rest =>
    if c = '$' || c = '₹' || c = '€' || c = '£' || c = '¥' then some ([c], rest)
    else if startsCI ['R', 's', '.'] l then some (l.take 3, l.drop 3)
    else if startsCI ['R', 's'] l then some (l.take 2, l.drop 2)
    else none
  | [] => none

/-- Pattern 3 at a position:
`(?:Price|MRP|Cost|Sale|Our Price)[:\s]*([$₹€£¥]|Rs\.?)\s*([\d,]+(?:\.\d{2})?)/i`
(line 140); `match[2]` is the number group. -/
def pricePat3At (l : List Char) : Option PriceHit := do
  let label ← priceLabels.findSome? fun lab =>
    if startsCI lab.data l then some (l.take lab.length) else none
  let r1 := l.drop label.length
  let sep := r1.takeWhile (fun c => c = ':' || isWsJS c)
  let (sym, r2) ← priceSymAt (r1.drop sep.length)
  let ws := r2.takeWhile isWsJS
  let (num, _) ← matchNum (r2.drop ws.length)
  pure { raw := label ++ sep ++ sym ++ ws ++ num, g2 := some num }

/-- Pattern 4 at a position: `(?:₹|Rs\.?)\s*([\d,]+(?:\.\d{2})?)` (line 142);
the group is `match[1]`, so `match[2]` is undefined. -/
def pricePat4At (l : List Char) : Option PriceHit := do
  let (sym, r1) ←
    match l with
    | '₹' :: rest => some (['₹'], rest)
    | _ =>
      if startsC ['R', 's', '.'] l then some (l.take 3, l.drop 3)
      else if startsC ['R', 's'] l then some (l.take 2, l.drop 2)
      else none
  let ws := r1.takeWhile isWsJS
  let (num, _) ← matchNum (r1.drop ws.length)
  pure { raw := sym ++ ws ++ num, g2 := none }

/-- Is the group exactly three uppercase ASCII letters (`/^[A-Z]{3}$/`)? -/
def isUpper3 (l : List Char) : Bool :=
  l.length = 3 && l.all (fun c => 'A' ≤ c && c ≤ 'Z')

/-- Result of `extractPriceFromText`. -/
structure PriceResult where
  value : ℚ
  currency : String
  rawText : String
  deriving Repr, DecidableEq

/-- Finish a pattern hit (lines 148-171): resolve the currency from the
symbol table (first symbol contained in the raw match), override it with
`match[2]` when that is a 3-uppercase-letter code, strip non-digit/dot
characters, `parseFloat`, and accept only a positive value. -/
def finishPriceHit (h : PriceHit) : Option PriceResult :=
  let fromSym :=
    match currencySymbols.find? (fun sc => hasSub sc.1.data h.raw) with
    | some sc => sc.2
    | none => "USD"
  let currency :=
    match h.g2 with
    | some g => if g ≠ [] && isUpper3 g then (⟨g⟩ : String) else fromSym
    | none => fromSym
  let numStr : String := ⟨h.raw.filter (fun c => c.isDigit || c = '.')⟩
  match parseFloatJS numStr with
  | some v => if 0 < v then some { value := v, currency, rawText := ⟨h.raw⟩ } else none
  | none => none

/-- `extractPriceFromText` (lines 116-175). -/
def extractPriceFromText (text : String) : Option PriceResult :=
  if text = "" then none
  else
    let tryPat (pat : List Char → Option PriceHit) : Option PriceResult :=
      match scanF pat text.data with
      | some h => finishPriceHit h
      | none => none
    match tryPat pricePat1At with
    | some r => some r
    | none =>
      match tryPat pricePat2At with
      | some r => some r
      | none =>
        match tryPat pricePat3At with
        | some r => some r
        | none => tryPat pricePat4At

/-! ## Rating extraction (schema-generator.ts lines 185-244) -/

/-- Count occurrences of a character (JavaScript `text.match(/c/g).length`). -/
def countChar (c : Char) (l : List Char) : Nat :=
  (l.filter (· = c)).length

/-- Review-count lookup `/(\d[\d,]*)\s*(?:reviews?|ratings?)/i` (lines
205, 235): leftmost match, capture group is the digit/comma run; the count
is `parseInt` after commas are stripped. -/
def reviewCountIn (l : List Char) : Option Nat :=
  scanF
    (fun sub => do
      let (d, rest1) ←
        match sub with
        | c :: rest => if c.isDigit then some (c, rest) else none
        | [] => none
      let more := rest1.takeWhile (fun c => c.isDigit || c = ',')
      let r2 := rest1.drop more.length
      let ws := r2.takeWhile isWsJS
      let r3 := r2.drop ws.length
      let _ ← (["reviews", "review", "ratings", "rating"].findSome? fun w =>
        if startsCI w.data r3 then some w else none)
      parseIntJS ⟨(d :: more).filter (· ≠ ',')⟩)
    l

/-- A rating-pattern hit: `match[0]` and the two capture groups. -/
structure RatingHit where
  raw : List Char
  g1 : List Char
  g2 : Option (List Char)

/-- Rating pattern `(★+)(☆*)` at a position (line 190). -/
def ratingPat1At (l : List Char) : Option RatingHit :=
  let stars := l.takeWhile (· = '★')
  if stars.isEmpty then none
  else
    let empties := (l.drop stars.length).takeWhile (· = '☆')
    some { raw := stars ++ empties, g1 := stars, g2 := some empties }

/-- Rating pattern `(\d)\s*(?:out of|\/)\s*(\d)/i` at a position (line 191). -/
def ratingPat2At (l : List Char) : Option RatingHit := do
  let (d1, r1) ←
    match l with
    | c :: rest => if c.isDigit then some (c, rest) else none
    | [] => none
  let ws1 := r1.takeWhile isWsJS
  let r2 := r1.drop ws1.length
  let (mid, r3) ←
    if startsCI "out of".data r2 then some (r2.take 6, r2.drop 6)
    else match r2 with
      | '/' :: rest => some (['/'], rest)
      | _ => none
  let ws2 := r3.takeWhile isWsJS
  let r4 := r3.drop ws2.length
  let (d2, _) ←
    match r4 with
    | c :: rest => if c.isDigit then some (c, rest) else none
    | [] => none
  pure { raw := [d1] ++ ws1 ++ mid ++ ws2 ++ [d2], g1 := [d1], g2 := some [d2] }

/-- Match `\d(?:\.\d)?` at the head (a digit, optionally a dot and digit). -/
def matchDigitDotDigit (l : List Char) : Option (List Char × List Char) :=
  match l with
  | c :: rest =>
    if c.isDigit then
      match rest with
      | '.' :: d :: r2 => if d.isDigit then some ([c, '.', d], r2) else some ([c], rest)
      | _ => some ([c], rest)
    else none
  | [] => none

/-- Rating pattern `(\d(?:\.\d)?)\s*(?:stars?|★)/i` at a position (line 192). -/
def ratingPat3At (l : List Char) : Option RatingHit := do
  let (num, r1) ← matchDigitDotDigit l
  let ws := r1.takeWhile isWsJS
  let r2 := r1.drop ws.length
  let (suffix, _) ←
    if startsCI "stars".data r2 then some (r2.take 5, r2.drop 5)
    else if startsCI "star".data r2 then some (r2.take 4, r2.drop 4)
    else match r2 with
      | '★' :: rest => some (['★'], rest)
      | _ => none
  pure { raw := num ++ ws ++ suffix, g1 := num, g2 := none }

/-- Rating pattern `(?:rated?|rating)[:\s]*(\d(?:\.\d)?)/i` at a position
(line 193); ordered alternation with backtracking: `rated`, `rate`,
`rating`. -/
def ratingPat4At (l : List Char) : Option RatingHit :=
  let finish (lab : List Char) (r1 : List Char) : Option RatingHit := do
    let sep := r1.takeWhile (fun c => c = ':' || isWsJS c)
    let (num, _) ← matchDigitDotDigit (r1.drop sep.length)
    pure { raw := lab ++ sep ++ num, g1 := num, g2 := none }
  (if startsCI "rated".data l then finish (l.take 5) (l.drop 5) else none).orElse fun _ =>
  (if startsCI "rate".data l then finish (l.take 4) (l.drop 4) else none).orElse fun _ =>
  (if startsCI "rating".data l then finish (l.take 6) (l.drop 6) else none)

/-- Result of `extractRatingFromText`. -/
structure RatingResult where
  value : ℚ
  maxRating : Nat
  count : Nat
  rawText : String
  deriving Repr, DecidableEq

/-- Finish a rating hit (lines 221-240): `match[1] && match[2]` (both
non-empty) uses both groups, else `match[1]` alone; `parseFloat(...) || 0`
and `parseInt(...) || 5`; accepted only when the value is positive. -/
def finishRatingHit (text : List Char) (h : RatingHit) : Option RatingResult :=
  let both := !h.g1.isEmpty &&
    (match h.g2 with | some g => !g.isEmpty | none => false)
  let value : ℚ :=
    (parseFloatJS ⟨h.g1⟩).getD 0
  let maxRating : Nat :=
    if both then
      match h.g2 with
      | some g =>
        match parseIntJS ⟨g⟩ with
        | some n => if n = 0 then 5 else n
        | none => 5
      | none => 5
    else 5
  if 0 < value then
    some { value, maxRating, count := (reviewCountIn text).getD 0, rawText := ⟨h.raw⟩ }
  else none

/-- `extractRatingFromText` (lines 185-244): the star-glyph count path first
(valid only when the total star count is between 1 and 5), then the numeric
patterns in order. -/
def extractRatingFromText (text : String) : Option RatingResult :=
  if text = "" then none
  else
    let l := text.data
    let fullStars := countChar '★' l
    let starPath : Option RatingResult :=
      if fullStars > 0 then
        let emptyStars := countChar '☆' l
        let total := fullStars + emptyStars
        if 0 < total && total ≤ 5 then
          some { value := (fullStars : ℚ), maxRating := total,
                 count := (reviewCountIn l).getD 0, rawText := ⟨l.take 100⟩ }
        else none
      else none
    match starPath with
    | some r => some r
    | none =>
      let tryPat (pat : List Char → Option RatingHit) : Option RatingResult :=
        match scanF pat l with
        | some h => finishRatingHit l h
        | none => none
      match tryPat ratingPat1At with
      | some r => some r
      | none =>
        match tryPat ratingPat2At with
        | some r => some r
        | none =>
          match tryPat ratingPat3At with
          | some r => some r
          | none => tryPat ratingPat4At

/-! ## Availability extraction (schema-generator.ts lines 253-306) -/

/-- Match a `\b`-delimited word sequence with `\s*` gaps
(e.g. `/\bin\s*stock\b/i`) at a position: the previous character must not be
a word character, the words match case-insensitively with any whitespace
between them, and the character after the last word must not be a word
character.  When `dashSep` is set the separator class is `[-\s]*`
(for `/\bpre[-\s]*order\b/i`). -/
def wordSeqAt (words : List String) (dashSep : Bool := false)
    (prev : Option Char) (l : List Char) : Option (List Char × List Char) := do
  let boundaryBefore :=
    match prev with
    | some c => !isWordC c
    | none => true
  if !boundaryBefore then none else
  let isSep : Char → Bool := fun c => isWsJS c || (dashSep && c = '-')
  let step (acc : Option (List Char × List Char)) (w : String) :
      Option (List Char × List Char) := do
    let (matched, rest) ← acc
    let sep := if matched.isEmpty then [] else rest.takeWhile isSep
    let r1 := rest.drop sep.length
    if startsCI w.data r1 then
      some (matched ++ sep ++ r1.take w.length, r1.drop w.length)
    else none
  let (matched, rest) ← words.foldl step (some ([], l))
  let boundaryAfter :=
    match rest with
    | c :: _ => !isWordC c
    | [] => true
  if boundaryAfter then some (matched, rest) else none

/-- First `\b word-seq \b` match anywhere in the text. -/
def findWordSeq (words : List String) (dashSep : Bool := false)
    (l : List Char) : Option (List Char) :=
  scanP (fun prev sub => (wordSeqAt words dashSep prev sub).map (·.1)) none l

/-- The pattern `/\bavailable\s*on\b.*\d/i` (line 278): the word sequence,
then (greedy `.*` with backtracking, `.` not matching newline) everything up
to the last digit on the same line; fails if no digit follows on the line. -/
def availableOnAt (prev : Option Char) (l : List Char) : Option (List Char) := do
  let (matched, rest) ← wordSeqAt ["available", "on"] false prev l
  let line := rest.takeWhile (· ≠ '\n')
  let upToLastDigit := (line.reverse.dropWhile (fun c => !c.isDigit)).reverse
  if upToLastDigit.isEmpty then none
  else some (matched ++ upToLastDigit)

/-- Result of `extractAvailabilityFromText`. -/
structure AvailabilityResult where
  status : String
  rawText : String
  deriving Repr, DecidableEq

/-- `extractAvailabilityFromText` (lines 253-306): out-of-stock patterns
first (more specific), then preorder, then in-stock; within a family the
patterns are tried in order, each scanned over the whole text. -/
def extractAvailabilityFromText (text : String) : AvailabilityResult :=
  if text = "" then { status := "unknown", rawText := "" }
  else
    let l := text.data
    let tryFamily (pats : List (List Char → Option (List Char))) :
        Option (List Char) :=
      pats.findSome? fun p => p l
    let outOfStock := tryFamily
      [findWordSeq ["out", "of", "stock"], findWordSeq ["sold", "out"],
       findWordSeq ["unavailable"], findWordSeq ["currently", "unavailable"],
       findWordSeq ["notify", "me"], findWordSeq ["waitlist"]]
    match outOfStock with
    | some raw => { status := "out_of_stock", rawText := ⟨raw⟩ }
    | none =>
      let preorder := tryFamily
        [findWordSeq ["pre", "order"] true, findWordSeq ["coming", "soon"],
         fun l => scanP availableOnAt none l]
      match preorder with
      | some raw => { status := "preorder", rawText := ⟨raw⟩ }
      | none =>
        let inStock := tryFamily
          [findWordSeq ["in", "stock"], findWordSeq ["available"],
           findWordSeq ["add", "to", "cart"], findWordSeq ["buy", "now"],
           findWordSeq ["add", "to", "bag"], findWordSeq ["in", "store"],
           findWordSeq ["ready", "to", "ship"]]
        match inStock with
        | some raw => { status := "in_stock", rawText := ⟨raw⟩ }
        | none => { status := "unknown", rawText := "" }

/-! ## Brand extraction (schema-generator.ts lines 315-335) -/

/-- Capture `([A-Z][A-Za-z0-9\s]{2,30})` under the `/i` flag at the head:
a letter, then greedily 2 to 30 letters/digits/whitespace. -/
def brandCaptureAt (l : List Char) : Option (List Char) := do
  let (c0, rest) ←
    match l with
    | c :: rest => if c.isAlpha then some (c, rest) else none
    | [] => none
  let body := (rest.takeWhile (fun c => c.isAlphanum || isWsJS c)).take 30
  if body.length < 2 then none else some (c0 :: body)

/-- Brand pattern `(?:brand|by|manufacturer)[:\s]*([A-Z][A-Za-z0-9\s]{2,30})/i`
at a position (line 323). -/
def brandPat1At (l : List Char) : Option (List Char) := do
  let lab ← (["brand", "by", "manufacturer"].findSome? fun w =>
    if startsCI w.data l then some w.length else none)
  let r1 := l.drop lab
  let sep := r1.takeWhile (fun c => c = ':' || isWsJS c)
  brandCaptureAt (r1.drop sep.length)

/-- Brand pattern `sold\s*by[:\s]*([A-Z][A-Za-z0-9\s]{2,30})/i` at a
position (line 324). -/
def brandPat2At (l : List Char) : Option (List Char) := do
  if !startsCI "sold".data l then none else
  let r1 := l.drop 4
  let ws := r1.takeWhile isWsJS
  let r2 := r1.drop ws.length
  if !startsCI "by".data r2 then none else
  let r3 := r2.drop 2
  let sep := r3.takeWhile (fun c => c = ':' || isWsJS c)
  brandCaptureAt (r3.drop sep.length)

/-- `extractBrandFromText` (lines 315-335): first pattern with a non-empty
capture wins; the captured group is trimmed.  (The schema branch in the
source is an empty no-op comment block.) -/
def extractBrandFromText (text : String) : Option String :=
  match scanF brandPat1At text.data with
  | some g => some (trimJS ⟨g⟩)
  | none =>
    match scanF brandPat2At text.data with
    | some g => some (trimJS ⟨g⟩)
    | none => none

/-! ## Specifications and purchase-CTA detection
(schema-generator.ts lines 344-409) -/

/-- `detectSpecifications` (lines 344-375): tables, else lists, from the
semantic-element tally; a product schema forces source "schema" and at
least one detected spec. -/
def detectSpecifications (page : Page) : CESpecs :=
  let tables := page.semanticElements.table
  let lists := page.semanticElements.ul + page.semanticElements.ol
  let (count0, source0) : Nat × Option String :=
    if tables > 0 then (tables, some "table")
    else if lists > 0 then (lists, some "list")
    else (0, none)
  let (count1, source1) :=
    if page.schemas.hasProductSchema then (max count0 1, some "schema")
    else (count0, source0)
  { detected := count1 > 0, count := count1, source := source1 }

/-- The fixed call-to-action vocabulary (lines 385-394), in source order. -/
def ctaPatterns : List String :=
  ["add to cart", "add to bag", "buy now", "shop now",
   "order now", "purchase", "checkout", "add to basket"]

/-- Insertion-ordered deduplication (`[...new Set(found)]`). -/
def dedupKeepOrder (l : List String) : List String :=
  l.foldl (fun acc x => if x ∈ acc then acc else acc ++ [x]) []

/-- `detectPurchaseCTA` (lines 384-409): substring match of each vocabulary
phrase against the lowercased text; the result list is deduplicated. -/
def detectPurchaseCTA (text : String) : CECta :=
  let textLower := lowerS text
  let found := ctaPatterns.filter (fun p => strIncludes textLower p)
  { detected := found.length > 0, buttons := dedupKeepOrder found }

/-! ## Full content extraction (schema-generator.ts lines 418-531) -/

/-- The text the extractor pattern-matches over: title, meta description
and the joined H1 texts, joined with spaces (lines 420-424). -/
def allTextOf (page : Page) : String :=
  String.intercalate " "
    [page.title, page.metaDescription, String.intercalate " " page.h1Texts]

/-- Replace every hyphen with a space (the global hyphen replace). -/
def dashToSpace (s : String) : String :=
  ⟨s.data.map (fun c => if c = '-' then ' ' else c)⟩

/-- The category fallback of `extractAllContent` (lines 444-458): the last
breadcrumb, else the second-to-last URL path segment (or the only one),
hyphens spaced.  Parsing the page URL with `new URL` means an unparsable
non-empty URL propagates as an error (spec section 4.1). -/
def categoryOfE (page : Page) : Except String (Option String × Option String) :=
  match page.breadcrumbs.getLast? with
  | some lastCrumb => Except.ok (some lastCrumb, some "breadcrumb")
  | none =>
    if page.url ≠ "" then do
      let u ← parseURLE page.url
      let segments := (splitCh '/' u.pathname).filter (fun s => s.length > 0)
      if segments.length > 0 then
        let idx := if segments.length > 1 then segments.length - 2 else 0
        pure (some (dashToSpace (segments.getD idx "")), some "url")
      else
        pure (none, none)
    else Except.ok (none, none)

/-- The pure body of `extractAllContent` (lines 418-531), given the
already-computed category pair. -/
def extractAllContentCore (page : Page)
    (category : Option String × Option String) : ContentExtraction :=
  let allText := allTextOf page
  let priceResult := extractPriceFromText allText
  let ratingResult := extractRatingFromText allText
  let availabilityResult := extractAvailabilityFromText allText
  let brandResult := extractBrandFromText allText
  let specsResult := detectSpecifications page
  let ctaResult := detectPurchaseCTA allText
  -- Product name source precedence (lines 460-476)
  let (productNameValue, productNameSource) : Option String × Option String :=
    if page.schemas.hasProductSchema then
      (if page.title ≠ "" then some page.title else none, some "schema")
    else
      match page.h1Texts.head? with
      | some h1 => (some h1, some "h1")
      | none =>
        if truthyOS (ogGet page.openGraph "title") then
          (ogGet page.openGraph "title", some "og")
        else if page.title ≠ "" then (some page.title, some "title")
        else (none, none)
  { productName := { value := productNameValue, source := productNameSource }
    price :=
      match priceResult with
      | some r =>
        { value := some r.value, currency := some r.currency,
          source := some "text", rawText := some r.rawText }
      | none => { value := none, currency := none, source := none, rawText := none }
    availability :=
      { status := availabilityResult.status
        source := if availabilityResult.rawText ≠ "" then some "text" else none
        rawText := if availabilityResult.rawText ≠ "" then some availabilityResult.rawText else none }
    rating :=
      match ratingResult with
      | some r =>
        { value := some r.value, maxRating := r.maxRating, count := r.count,
          source := some "text", rawText := some r.rawText }
      | none => { value := none, maxRating := 5, count := 0, source := none, rawText := none }
    brand :=
      match brandResult with
      | some b => { value := some b, source := some "text" }
      | none => { value := none, source := none }
    category := { value := category.1, source := category.2 }
    specifications := specsResult
    images :=
      { count := page.images.total, hasAlt := page.images.withAlt,
        productImages := page.images.total }
    purchaseCTA := ctaResult }

/-- `extractAllContent` (lines 418-531): the category step is the only
fallible part; everything else is pure pattern matching over the signals. -/
def extractAllContentE (page : Page) : Except String ContentExtraction := do
  let category ← categoryOfE page
  pure (extractAllContentCore page category)

/-! ## Page type detection (schema-generator.ts lines 39-106) -/

/-- Test of the Myntra-style pattern `/\/[a-z0-9-]+\/p-[a-z0-9]+/i` at a
position: a slash, one or more letters/digits/hyphens (greedy; safe because
`/` is not in the class), then `/p-` and at least one letter/digit. -/
def myntraAt (l : List Char) : Option Unit :=
  match l with
  | '/' :: rest =>
    let b := rest.takeWhile (fun c => c.isAlpha || c.isDigit || c = '-')
    if b.isEmpty then none
    else
      match rest.drop b.length with
      | '/' :: p :: '-' :: c :: _ =>
        if p.toLower = 'p' && (c.isAlpha || c.isDigit) then some () else none
      | _ => none
  | _ => none

/-- The product-URL patterns (lines 70-78) as a test on the lowercased
path: the substrings "/product/", "/products/", "/p/", "/dp/", "/item/",
"/product-", "?product=" and the Myntra-style pattern. -/
def productPatternTest (urlPath : String) : Bool :=
  strIncludes urlPath "/product/" || strIncludes urlPath "/products/" ||
  strIncludes urlPath "/p/" || strIncludes urlPath "/dp/" ||
  strIncludes urlPath "/item/" || strIncludes urlPath "/product-" ||
  strIncludes urlPath "?product=" ||
  (scanF myntraAt urlPath.data).isSome

/-- The collection-URL patterns (lines 91-99) as a test on the lowercased
path: `\/collections?\//`, `\/categories?\//`, `\/category\//`, `\/c\//`,
`\/shop\//`, `\/catalog\//`, `\/department\//`. -/
def collectionPatternTest (urlPath : String) : Bool :=
  strIncludes urlPath "/collection/" || strIncludes urlPath "/collections/" ||
  strIncludes urlPath "/categorie/" || strIncludes urlPath "/categories/" ||
  strIncludes urlPath "/category/" || strIncludes urlPath "/c/" ||
  strIncludes urlPath "/shop/" || strIncludes urlPath "/catalog/" ||
  strIncludes urlPath "/department/"

/-- `detectPageType` (lines 39-106) on an already-parsed pathname, given
the partial schema flags; first match wins in source order. -/
def detectPageTypeFromPath (pathname : String) (schemas : Schemas) : PageType :=
  let urlPath := lowerS pathname
  if urlPath = "/" || urlPath = "" then .homepage
  else if strIncludes urlPath "/cart" || strIncludes urlPath "/basket" ||
      strIncludes urlPath "/checkout" then .cart
  else if strIncludes urlPath "/search" || strIncludes urlPath "/search-results" then .search
  else if strIncludes urlPath "/blog/" || strIncludes urlPath "/news/" ||
      strIncludes urlPath "/article/" || strIncludes urlPath "/post/" ||
      schemas.hasArticleSchema then .blog
  else if productPatternTest urlPath then .product
  else if schemas.hasProductSchema then .product
  else if collectionPatternTest urlPath then .collection
  else .other

/-- `detectPageType` on a raw URL: `new URL(url).pathname` first, so an
unparsable URL propagates. -/
def detectPageTypeE (url : String) (schemas : Schemas) : Except String PageType := do
  let u ← parseURLE url
  pure (detectPageTypeFromPath u.pathname schemas)

/-- Rule 1 of the classifier: the (lowercased) path is exactly "/" (or
empty). -/
def homepageCond (urlPath : String) : Bool :=
  urlPath = "/" || urlPath = ""

/-- Rule 2: a cart/basket/checkout segment. -/
def cartCond (urlPath : String) : Bool :=
  strIncludes urlPath "/cart" || strIncludes urlPath "/basket" ||
    strIncludes urlPath "/checkout"

/-- Rule 3: a search segment. -/
def searchCond (urlPath : String) : Bool :=
  strIncludes urlPath "/search" || strIncludes urlPath "/search-results"

/-- The path part of rule 4: a blog/news/article/post segment. -/
def blogSegCond (urlPath : String) : Bool :=
  strIncludes urlPath "/blog/" || strIncludes urlPath "/news/" ||
    strIncludes urlPath "/article/" || strIncludes urlPath "/post/"

/-- Rule 4: a blog segment or the article structured-data flag. -/
def blogCond (urlPath : String) (schemas : Schemas) : Bool :=
  strIncludes urlPath "/blog/" || strIncludes urlPath "/news/" ||
    strIncludes urlPath "/article/" || strIncludes urlPath "/post/" ||
    schemas.hasArticleSchema

/-- Rule 5: a product-URL pattern or the product structured-data flag. -/
def productCond (urlPath : String) (schemas : Schemas) : Bool :=
  productPatternTest urlPath || schemas.hasProductSchema

/-! ## URL type detection (schema-generator.ts lines 1480-1526) -/

/-- The Myntra-style pattern of `detectUrlType`
(`/\/[a-z0-9]+\/p-[a-z0-9]+/i`, line 1504 — no hyphen in the first class). -/
def myntraNoDashAt (l : List Char) : Option Unit :=
  match l with
  | '/' :: rest =>
    let b := rest.takeWhile (fun c => c.isAlpha || c.isDigit)
    if b.isEmpty then none
    else
      match rest.drop b.length with
      | '/' :: p :: '-' :: c :: _ =>
        if p.toLower = 'p' && (c.isAlpha || c.isDigit) then some () else none
      | _ => none
  | _ => none

/-- Result of `detectUrlType`. -/
structure UrlAnalysis where
  utype : String
  domain : String
  isProductPage : Bool
  isHomepage : Bool
  isCollection : Bool
  deriving Repr, DecidableEq

/-- `detectUrlType` (lines 1480-1526): parses the URL (so an unparsable
URL — notably the empty string — is a propagated error), then classifies
into domain / product / collection. -/
def detectUrlTypeE (url : String) : Except String UrlAnalysis := do
  let u ← parseURLE url
  let urlPath := lowerS u.pathname
  let domain := u.hostname
  if urlPath = "/" || urlPath = "" then
    pure { utype := "domain", domain, isProductPage := false,
           isHomepage := true, isCollection := false }
  else
    let productHit :=
      strIncludes urlPath "/product/" || strIncludes urlPath "/products/" ||
      strIncludes urlPath "/p/" || strIncludes urlPath "/dp/" ||
      strIncludes urlPath "/item/" || strIncludes urlPath "/product-" ||
      strIncludes urlPath "?product=" ||
      (scanF myntraNoDashAt urlPath.data).isSome
    if productHit then
      pure { utype := "product", domain, isProductPage := true,
             isHomepage := false, isCollection := false }
    else
      let collectionHit :=
        strIncludes urlPath "/collection/" || strIncludes urlPath "/collections/" ||
        strIncludes urlPath "/categorie/" || strIncludes urlPath "/categories/" ||
        strIncludes urlPath "/category/" || strIncludes urlPath "/c/" ||
        strIncludes urlPath "/shop/" || strIncludes urlPath "/catalog/"
      if collectionHit then
        pure { utype := "collection", domain, isProductPage := false,
               isHomepage := false, isCollection := true }
      else
        pure { utype := "domain", domain, isProductPage := false,
               isHomepage := false, isCollection := false }

/-! ## Identifier extraction (schema-generator.ts lines 1608-1650) -/

/-- The `{gtin, mpn, sku}` result. -/
structure Identifiers where
  gtin : Option String := none
  mpn : Option String := none
  sku : Option String := none
  deriving Repr, DecidableEq

/-- One truthiness-guarded assignment `if (s[k] && !cur) cur = String(s[k])`. -/
def idUpd (cur v : Option String) : Option String :=
  if truthyOS v && !truthyOS cur then v else cur

/-- The per-object step of the identifier scan (lines 1620-1631): the keys
`gtin`, `gtin13`, `gtin14`, `gtin8`, `mpn`, `sku`, `productID`, in source
order, first non-empty value winning per field. -/
def idStep (st : Identifiers) (o : JsonLdObj) : Identifiers :=
  { gtin := idUpd (idUpd (idUpd (idUpd st.gtin o.gtin) o.gtin13) o.gtin14) o.gtin8
    mpn := idUpd st.mpn o.mpn
    sku := idUpd (idUpd st.sku o.sku) o.productID }

/-- Body-text fallback `/(?:GTIN|EAN|UPC)[:\s]*(\d{8,14})/i` at a position
(line 1636): greedy up to 14 digits, at least 8. -/
def gtinTextAt (l : List Char) : Option String := do
  let lab ← (["GTIN", "EAN", "UPC"].findSome? fun w =>
    if startsCI w.data l then some w.length else none)
  let r1 := l.drop lab
  let sep := r1.takeWhile (fun c => c = ':' || isWsJS c)
  let ds := ((r1.drop sep.length).takeWhile Char.isDigit).take 14
  if ds.length < 8 then none else some ⟨ds⟩

/-- Capture `([A-Z0-9][A-Z0-9-]+)` under `/i` at the head: a letter/digit
then at least one more letter/digit/hyphen, greedy. -/
def idCaptureAt (l : List Char) : Option String := do
  let (c0, rest) ←
    match l with
    | c :: rest => if c.isAlphanum then some (c, rest) else none
    | [] => none
  let body := rest.takeWhile (fun c => c.isAlphanum || c = '-')
  if body.isEmpty then none else some ⟨c0 :: body⟩

/-- Body-text fallback `/(?:MPN|Manufacturer\s*Part)[:\s]*([A-Z0-9][A-Z0-9-]+)/i`
at a position (line 1640). -/
def mpnTextAt (l : List Char) : Option String := do
  let labLen ←
    if startsCI "MPN".data l then some 3
    else if startsCI "Manufacturer".data l then
      let r := l.drop 12
      let ws := r.takeWhile isWsJS
      if startsCI "Part".data (r.drop ws.length) then some (12 + ws.length + 4) else none
    else none
  let r1 := l.drop labLen
  let sep := r1.takeWhile (fun c => c = ':' || isWsJS c)
  idCaptureAt (r1.drop sep.length)

/-- Body-text fallback `/(?:SKU|Item\s*#)[:\s]*([A-Z0-9][A-Z0-9-]+)/i`
at a position (line 1644). -/
def skuTextAt (l : List Char) : Option String := do
  let labLen ←
    if startsCI "SKU".data l then some 3
    else if startsCI "Item".data l then
      let r := l.drop 4
      let ws := r.takeWhile isWsJS
      match r.drop ws.length with
      | '#' :: _ => some (4 + ws.length + 1)
      | _ => none
    else none
  let r1 := l.drop labLen
  let sep := r1.takeWhile (fun c => c = ':' || isWsJS c)
  idCaptureAt (r1.drop sep.length)

/-- `extractIdentifiers` (lines 1608-1650): structured data first, then the
labelled body-text patterns for still-empty fields when body text is given. -/
def extractIdentifiers (jsonLdScripts : List JsonLdObj)
    (bodyText : Option String := none) : Identifiers :=
  let fromSchema := jsonLdScripts.foldl idStep {}
  match bodyText with
  | some bt =>
    if bt ≠ "" then
      let g := if !truthyOS fromSchema.gtin then
          match scanF gtinTextAt bt.data with
          | some v => some v
          | none => fromSchema.gtin
        else fromSchema.gtin
      let m := if !truthyOS fromSchema.mpn then
          match scanF mpnTextAt bt.data with
          | some v => some v
          | none => fromSchema.mpn
        else fromSchema.mpn
      let s := if !truthyOS fromSchema.sku then
          match scanF skuTextAt bt.data with
          | some v => some v
          | none => fromSchema.sku
        else fromSchema.sku
      { gtin := g, mpn := m, sku := s }
    else fromSchema
  | none => fromSchema

/-! ## Page scoring (schema-generator.ts lines 553-872)

The breakdown structures mirror the object literal built at lines 561-624;
every `points`/`max` is a natural number. -/

/-- `breakdown.identity.productName`. -/
structure BProductName where
  points : Nat := 0
  max : Nat := 10
  found : Bool := false
  source : Option String := none
  deriving Repr, DecidableEq

/-- `breakdown.identity.description`. -/
structure BDescription where
  points : Nat := 0
  max : Nat := 5
  found : Bool := false
  length : Nat := 0
  deriving Repr, DecidableEq

/-- `breakdown.identity.category`. -/
structure BCategory where
  points : Nat := 0
  max : Nat := 5
  found : Bool := false
  value : Option String := none
  deriving Repr, DecidableEq

/-- `breakdown.identity`. -/
structure BIdentity where
  productName : BProductName := {}
  description : BDescription := {}
  category : BCategory := {}
  totalPoints : Nat := 0
  maxPoints : Nat := 20
  deriving Repr, DecidableEq

/-- `breakdown.pricing.price`. -/
structure BPrice where
  points : Nat := 0
  max : Nat := 12
  found : Bool := false
  value : Option ℚ := none
  currency : Option String := none
  source : Option String := none
  deriving Repr, DecidableEq

/-- `breakdown.pricing.currency`. -/
structure BCurrency where
  points : Nat := 0
  max : Nat := 3
  found : Bool := false
  symbol : Option String := none
  deriving Repr, DecidableEq

/-- `breakdown.pricing`. -/
structure BPricing where
  price : BPrice := {}
  currency : BCurrency := {}
  totalPoints : Nat := 0
  maxPoints : Nat := 15
  deriving Repr, DecidableEq

/-- `breakdown.availability`. -/
structure BAvailability where
  points : Nat := 0
  max : Nat := 10
  found : Bool := false
  status : String := "unknown"
  source : Option String := none
  deriving Repr, DecidableEq

/-- `breakdown.reviews.rating`. -/
structure BRating where
  points : Nat := 0
  max : Nat := 10
  found : Bool := false
  value : Option ℚ := none
  count : Nat := 0
  source : Option String := none
  deriving Repr, DecidableEq

/-- `breakdown.reviews.count`. -/
structure BReviewCount where
  points : Nat := 0
  max : Nat := 10
  found : Bool := false
  value : Nat := 0
  deriving Repr, DecidableEq

/-- `breakdown.reviews`. -/
structure BReviews where
  rating : BRating := {}
  count : BReviewCount := {}
  totalPoints : Nat := 0
  maxPoints : Nat := 20
  deriving Repr, DecidableEq

/-- `breakdown.identifiers.values`. -/
structure BIdValues where
  gtin : Option String := none
  mpn : Option String := none
  sku : Option String := none
  deriving Repr, DecidableEq

/-- `breakdown.identifiers`. -/
structure BIdentifiers where
  points : Nat := 0
  max : Nat := 10
  hasGTIN : Bool := false
  hasMPN : Bool := false
  hasSKU : Bool := false
  values : BIdValues := {}
  count : Nat := 0
  deriving Repr, DecidableEq

/-- `breakdown.images`. -/
structure BImages where
  points : Nat := 0
  max : Nat := 5
  count : Nat := 0
  withAlt : Nat := 0
  altRatio : ℚ := 0
  deriving Repr, DecidableEq

/-- `breakdown.specifications`. -/
structure BSpecifications where
  points : Nat := 0
  max : Nat := 10
  found : Bool := false
  count : Nat := 0
  source : Option String := none
  deriving Repr, DecidableEq

/-- `breakdown.schemaBonus`. -/
structure BSchemaBonus where
  points : Nat := 0
  max : Nat := 10
  hasProductSchema : Bool := false
  hasOfferSchema : Bool := false
  hasAggregateRatingSchema : Bool := false
  isComplete : Bool := false
  deriving Repr, DecidableEq

/-- `breakdown.pageContext`. -/
structure BPageContext where
  detectedType : PageType
  isApplicable : Bool
  reason : Option String := none
  deriving Repr, DecidableEq

/-- The `ExtractabilityBreakdown` object. -/
structure ExtractabilityBreakdown where
  identity : BIdentity
  pricing : BPricing
  availability : BAvailability
  reviews : BReviews
  identifiers : BIdentifiers
  images : BImages
  specifications : BSpecifications
  schemaBonus : BSchemaBonus
  pageContext : BPageContext
  deriving Repr, DecidableEq

/-- The `ExtractabilityScore` result. -/
structure ExtractabilityScore where
  score : Nat
  max : Nat
  label : String
  breakdown : ExtractabilityBreakdown
  deriving Repr, DecidableEq

/-- The not-applicable reason string (line 627). -/
def naReason (pt : PageType) : String :=
  "Scoring only applies to product/collection pages. This is a " ++
    pt.str ++ " page."

/-- Identity category (lines 631-673). -/
def identityOf (page : Page) (extraction : ContentExtraction) : BIdentity :=
  let pn : BProductName :=
    if page.schemas.hasProductSchema && page.title ≠ "" then
      { points := 10, source := some "schema", found := true }
    else if extraction.productName.source = some "h1" &&
        truthyOS extraction.productName.value then
      { points := 8, source := some "h1", found := true }
    else if truthyOS extraction.productName.value then
      { points := 5,
        source := some (jsOrStr extraction.productName.source "content")
        found := true }
    else { points := 0, source := none, found := false }
  let descLength := page.metaDescription.length
  let desc : BDescription :=
    if descLength ≥ 120 then { points := 5, found := true, length := descLength }
    else if descLength ≥ 50 then { points := 3, found := true, length := descLength }
    else { points := 0, found := false, length := descLength }
  let cat : BCategory :=
    if page.schemas.hasBreadcrumbSchema && truthyOS extraction.category.value then
      { points := 5, value := extraction.category.value, found := true }
    else if truthyOS extraction.category.value then
      { points := 3, value := extraction.category.value, found := true }
    else { points := 0, value := none, found := false }
  { productName := pn, description := desc, category := cat
    totalPoints := pn.points + desc.points + cat.points }

/-- Pricing category (lines 675-705). -/
def pricingOf (page : Page) (extraction : ContentExtraction) : BPricing :=
  let base : BPrice :=
    if page.schemas.hasOfferSchema && truthyOQ extraction.price.value then
      { points := 12, source := some "schema", found := true }
    else if truthyOQ extraction.price.value then
      { points := 10, source := some (jsOrStr extraction.price.source "text")
        found := true }
    else { points := 0, source := none, found := false }
  let price : BPrice :=
    { base with
      value := if truthyOQ extraction.price.value then extraction.price.value else none
      currency := if truthyOS extraction.price.currency then extraction.price.currency else none }
  let currency : BCurrency :=
    if truthyOS extraction.price.currency then
      { points := if page.schemas.hasOfferSchema then 3 else 2
        symbol := extraction.price.currency, found := true }
    else { points := 0, symbol := none, found := false }
  { price, currency, totalPoints := price.points + currency.points }

/-- Availability category (lines 707-726). -/
def availabilityOf (page : Page) (extraction : ContentExtraction) : BAvailability :=
  if page.schemas.hasOfferSchema then
    { points := 10, found := true
      status := if extraction.availability.status ≠ "" then
          extraction.availability.status else "in_stock"
      source := some "schema" }
  else if extraction.availability.status ≠ "" &&
      extraction.availability.status ≠ "unknown" then
    { points := 8, found := true, status := extraction.availability.status
      source := some (jsOrStr extraction.availability.source "text") }
  else if extraction.purchaseCTA.detected then
    { points := 5, found := true, status := "in_stock", source := some "cta" }
  else { points := 0, found := false, status := "unknown", source := none }

/-- Reviews category (lines 728-770). -/
def reviewsOf (page : Page) (extraction : ContentExtraction) : BReviews :=
  let ratingValue := jsOrQ page.reviews.averageRating extraction.rating.value
  let reviewCount := jsOrNat page.reviews.reviewCount extraction.rating.count
  let rating : BRating :=
    match ratingValue with
    | some v =>
      if page.schemas.hasAggregateRating then
        { points := 10, source := some "schema", found := true
          value := some v, count := reviewCount }
      else
        { points := 8, source := some (jsOrStr extraction.rating.source "text")
          found := true, value := some v, count := reviewCount }
    | none => { points := 0, source := none, found := false, value := none, count := 0 }
  let count : BReviewCount :=
    if reviewCount > 0 then
      { found := true, value := reviewCount
        points :=
          if reviewCount ≥ 100 then 10
          else if reviewCount ≥ 50 then 8
          else if reviewCount ≥ 10 then 6
          else if reviewCount ≥ 5 then 4
          else 2 }
    else { points := 0, found := false, value := 0 }
  { rating, count, totalPoints := rating.points + count.points }

/-- Identifiers category (lines 772-792): the single highest-value
identifier wins — GTIN 10, else MPN 7, else SKU 5. -/
def identifiersOf (identifiers : Identifiers) : BIdentifiers :=
  { hasGTIN := truthyOS identifiers.gtin
    hasMPN := truthyOS identifiers.mpn
    hasSKU := truthyOS identifiers.sku
    values :=
      { gtin := if truthyOS identifiers.gtin then identifiers.gtin else none
        mpn := if truthyOS identifiers.mpn then identifiers.mpn else none
        sku := if truthyOS identifiers.sku then identifiers.sku else none }
    count :=
      [identifiers.gtin, identifiers.mpn, identifiers.sku].countP
        (fun v => truthyOS v)
    points :=
      if truthyOS identifiers.gtin then 10
      else if truthyOS identifiers.mpn then 7
      else if truthyOS identifiers.sku then 5
      else 0 }

/-- Images category (lines 794-814). -/
def imagesOf (page : Page) (extraction : ContentExtraction) : BImages :=
  let imageCount := jsOrNat page.images.total extraction.images.count
  let withAlt := jsOrNat page.images.withAlt extraction.images.hasAlt
  let altRatio : ℚ := if imageCount > 0 then mkRat withAlt imageCount else 0
  { count := imageCount, withAlt, altRatio
    points :=
      if imageCount ≥ 3 && altRatio ≥ mkRat 4 5 then 5
      else if imageCount ≥ 2 && altRatio ≥ mkRat 1 2 then 4
      else if imageCount ≥ 1 && altRatio ≥ mkRat 1 2 then 3
      else if imageCount ≥ 1 then 2
      else 0 }

/-- Specifications category (lines 816-832). -/
def specificationsOf (extraction : ContentExtraction) : BSpecifications :=
  if extraction.specifications.detected then
    { found := true, count := extraction.specifications.count
      source := extraction.specifications.source
      points :=
        if extraction.specifications.count ≥ 5 then 10
        else if extraction.specifications.count ≥ 3 then 7
        else 5 }
  else { points := 0, found := false, count := 0, source := none }

/-- Schema-bonus category (lines 834-849). -/
def schemaBonusOf (page : Page) : BSchemaBonus :=
  { hasProductSchema := page.schemas.hasProductSchema
    hasOfferSchema := page.schemas.hasOfferSchema
    hasAggregateRatingSchema := page.schemas.hasAggregateRating
    isComplete := page.schemas.hasProductSchema && page.schemas.hasOfferSchema &&
      page.schemas.hasAggregateRating
    points :=
      if page.schemas.hasProductSchema && page.schemas.hasOfferSchema &&
          page.schemas.hasAggregateRating then 10
      else if page.schemas.hasProductSchema && page.schemas.hasOfferSchema then 8
      else if page.schemas.hasProductSchema then 5
      else 0 }

/-- The score label thresholds (lines 866-869). -/
def scoreLabel (totalScore : Nat) : String :=
  if totalScore ≥ 80 then "Excellent"
  else if totalScore ≥ 60 then "Good"
  else if totalScore ≥ 40 then "Fair"
  else "Poor"

/-- The pure body of `calculateExtractabilityScore` (lines 553-872), given
the resolved page type, content extraction and identifiers.  Non-applicable
page types short-circuit to the zero-initialised breakdown with an explicit
reason and label "N/A"; otherwise each category is computed and the total is
capped at 100. -/
def calcExtractability (page : Page) (pageType : PageType)
    (extraction : ContentExtraction) (identifiers : Identifiers) :
    ExtractabilityScore :=
  let isApplicable := pageType = PageType.product || pageType = PageType.collection
  if !isApplicable then
    { score := 0, max := 100, label := "N/A"
      breakdown :=
        { identity := {}, pricing := {}, availability := {}, reviews := {}
          identifiers := {}, images := {}, specifications := {}, schemaBonus := {}
          pageContext :=
            { detectedType := pageType, isApplicable := false
              reason := some (naReason pageType) } } }
  else
    let identity := identityOf page extraction
    let pricing := pricingOf page extraction
    let availability := availabilityOf page extraction
    let reviews := reviewsOf page extraction
    let identifiersB := identifiersOf identifiers
    let images := imagesOf page extraction
    let specifications := specificationsOf extraction
    let schemaBonus := schemaBonusOf page
    let totalScore :=
      min 100
        (identity.totalPoints + pricing.totalPoints + availability.points +
          reviews.totalPoints + identifiersB.points + images.points +
          specifications.points + schemaBonus.points)
    { score := totalScore, max := 100, label := scoreLabel totalScore
      breakdown :=
        { identity, pricing, availability, reviews, identifiers := identifiersB
          images, specifications, schemaBonus
          pageContext :=
            { detectedType := pageType, isApplicable := true, reason := none } } }

/-- `calculateExtractabilityScore` (lines 553-872): resolve the page type
(stored, else detected from the URL) and the content extraction (stored,
else computed from the signals), extract the identifiers from the
structured data, then score.  URL parsing failures propagate. -/
def calculateExtractabilityScoreE (page : Page) : Except String ExtractabilityScore := do
  let pageType ←
    match page.pageType with
    | some t => pure t
    | none => detectPageTypeE page.url page.schemas
  let extraction ←
    match page.contentExtraction with
    | some e => pure e
    | none => extractAllContentE page
  let identifiers := extractIdentifiers page.jsonLdScripts
  pure (calcExtractability page pageType extraction identifiers)

/-! ## Schema-snippet generation (schema-generator.ts lines 1193-1376)

The generated JSON-LD objects are modelled structurally; the derived
`jsonString` field (their `JSON.stringify` pretty-printing) is not
modelled — no embedded function reads it back. -/

/-- A generated `Offer` object (lines 1252-1257). -/
structure OfferJson where
  price : ℚ
  priceCurrency : String
  availability : String
  deriving Repr, DecidableEq

/-- A generated `AggregateRating` object (lines 1265-1269). -/
structure AggRatingJson where
  ratingValue : ℚ
  reviewCount : Nat
  deriving Repr, DecidableEq

/-- A generated `ListItem` of a breadcrumb list (lines 1298-1317). -/
structure BreadcrumbItem where
  position : Nat
  name : String
  item : String
  deriving Repr, DecidableEq

/-- The generated JSON-LD payload of a schema snippet. -/
inductive SchemaJson where
  | product (name description : Option String) (url : String)
      (image : Option String) (offers : Option OfferJson)
      (aggregateRating : Option AggRatingJson)
  | breadcrumbList (items : List BreadcrumbItem)
  | faqPage (items : List (String × String))
  deriving Repr, DecidableEq

/-- A `GeneratedSchema` (types.ts lines 517-526, minus `jsonString`). -/
structure GeneratedSchema where
  stype : String
  jsonLd : SchemaJson
  confidence : String
  fieldsExtracted : List String
  fieldsMissing : List String
  suggestions : List String
  sourceUrl : String
  deriving Repr, DecidableEq

/-- The missing-field-count confidence rule of the Product generator
(lines 1273-1275): 0 missing fields is high, at most 2 is medium,
otherwise low. -/
def confidenceOfMissing (missing : Nat) : String :=
  if missing = 0 then "high" else if missing ≤ 2 then "medium" else "low"

/-- `generateProductSchemaFromPage` (lines 1212-1287).  The source declares
an `| null` return type but always returns a schema. -/
def generateProductSchemaFromPage (page : Page) : GeneratedSchema :=
  let nameOk := page.title ≠ ""
  let descOk := page.metaDescription ≠ ""
  let imageOk := truthyOS (ogGet page.openGraph "image")
  let price := page.contentExtraction.bind (fun e => e.price.value)
  let priceOk := truthyOQ price
  let ratingOk := page.reviews.hasReviews && truthyOQ page.reviews.averageRating
  let fieldsExtracted :=
    (if nameOk then ["name"] else []) ++
    (if descOk then ["description"] else []) ++
    ["url"] ++
    (if imageOk then ["image"] else []) ++
    (if priceOk then ["price"] else []) ++
    (if ratingOk then ["aggregateRating"] else [])
  let fieldsMissing :=
    (if nameOk then [] else ["name"]) ++
    (if descOk then [] else ["description"]) ++
    (if imageOk then [] else ["image"]) ++
    (if priceOk then [] else ["price"])
  let suggestions :=
    (if nameOk then [] else ["Add a descriptive product title"]) ++
    (if descOk then [] else ["Add a product description"]) ++
    (if imageOk then [] else ["Add product images"]) ++
    (if priceOk then [] else ["Add product pricing information"])
  { stype := "Product"
    jsonLd := SchemaJson.product
      (if nameOk then some page.title else none)
      (if descOk then some page.metaDescription else none)
      page.url
      (if imageOk then ogGet page.openGraph "image" else none)
      (if priceOk then
        some { price := price.getD 0
               priceCurrency :=
                 jsOrStr (page.contentExtraction.bind (fun e => e.price.currency)) "USD"
               availability := "https://schema.org/InStock" }
       else none)
      (if ratingOk then
        some { ratingValue := (page.reviews.averageRating).getD 0
               reviewCount := jsOrNat page.reviews.ratingCount page.reviews.reviewCount }
       else none)
    confidence := confidenceOfMissing fieldsMissing.length
    fieldsExtracted, fieldsMissing, suggestions
    sourceUrl := page.url }

/-- Capitalize every word-initial character (`replace(/\b\w/g, upper)`). -/
def capWordBounds (s : String) : String :=
  let rec go (prev : Option Char) : List Char → List Char
    | [] => []
    | c :: r =>
      let atBoundary :=
        match prev with
        | some p => !isWordC p
        | none => true
      (if isWordC c && atBoundary then c.toUpper else c) :: go (some c) r
  ⟨go none s.data⟩

/-- `generateBreadcrumbSchemaFromPage` (lines 1289-1337): parses the page
URL (propagating a parse failure), builds a Home item plus one item per
path segment with hyphens spaced and words capitalized; `none` when the
path has no segments. -/
def generateBreadcrumbSchemaFromPageE (page : Page) :
    Except String (Option GeneratedSchema) := do
  let u ← parseURLE page.url
  let pathSegments := (splitCh '/' u.pathname).filter (fun s => s.length > 0)
  if pathSegments.length = 0 then pure none
  else
    let items :=
      [{ position := 1, name := "Home", item := u.origin : BreadcrumbItem }] ++
      (List.range pathSegments.length).map (fun index =>
        { position := index + 2
          name := capWordBounds (dashToSpace (pathSegments.getD index ""))
          item := u.origin ++ "/" ++
            String.intercalate "/" (pathSegments.take (index + 1)) })
    pure (some
      { stype := "BreadcrumbList"
        jsonLd := SchemaJson.breadcrumbList items
        confidence := "high"
        fieldsExtracted := ["breadcrumb items"]
        fieldsMissing := []
        suggestions := []
        sourceUrl := page.url })

/-- `generateFAQSchemaFromPage` (lines 1339-1376): up to five quote-ready
snippets become Question/Answer pairs (names truncated to 57 characters
plus an ellipsis when longer than 60); `none` when there are no snippets;
the emitted snippet always carries confidence "low" and an empty
missing-field list. -/
def generateFAQSchemaFromPage (page : Page) : Option GeneratedSchema :=
  let items := (page.quoteReadySnippets.take 5).map (fun snippet =>
    (if snippet.length > 60 then snippet.take 57 ++ "..." else snippet, snippet))
  if items.length = 0 then none
  else
    some
      { stype := "FAQPage"
        jsonLd := SchemaJson.faqPage items
        confidence := "low"
        fieldsExtracted := ["FAQ items from content"]
        fieldsMissing := []
        suggestions := ["Review auto-generated FAQ items for accuracy",
                        "Add more specific questions"]
        sourceUrl := page.url }

/-- `generateSchemaForPage` (lines 1193-1210): a Product snippet when the
page has product schema, a "product" title or a "/product" URL; always a
breadcrumb attempt; an FAQ snippet when the page has FAQ schema or at
least three quote-ready snippets. -/
def generateSchemaForPageE (page : Page) :
    Except String (List GeneratedSchema) := do
  let productPart :=
    if page.schemas.hasProductSchema ||
        strIncludes (lowerS page.title) "product" ||
        strIncludes page.url "/product" then
      [generateProductSchemaFromPage page]
    else []
  let breadcrumb ← generateBreadcrumbSchemaFromPageE page
  let breadcrumbPart := match breadcrumb with | some s => [s] | none => []
  let faqPart :=
    if page.schemas.hasFAQSchema || page.quoteReadySnippets.length ≥ 3 then
      match generateFAQSchemaFromPage page with
      | some s => [s]
      | none => []
    else []
  pure (productPart ++ breadcrumbPart ++ faqPart)

/-! ## AI crawler access (schema-generator.ts lines 1535-1599) -/

/-- Result of `checkAICrawlerAccess`. -/
structure CrawlerAccess where
  allowsOAI : Bool
  allowsGPTBot : Bool
  allowsChatGPTUser : Bool
  hasRobotsTxt : Bool
  details : String
  deriving Repr, DecidableEq

/-- The per-line state of the robots.txt scan: the current user-agent and
the four blocked flags. -/
structure RobotsState where
  currentUserAgent : String := ""
  oai : Bool := false
  gptbot : Bool := false
  chatgpt : Bool := false
  all : Bool := false

/-- One line of the robots.txt scan (lines 1562-1579). -/
def robotsLineStep (st : RobotsState) (line : String) : RobotsState :=
  let trimmed := trimJS line
  let lowerLine := lowerS trimmed
  if startsWithS lowerLine "user-agent:" then
    { st with currentUserAgent := trimJS (lowerLine.drop 11) }
  else if startsWithS lowerLine "disallow:" then
    let path := trimJS (trimmed.drop 9)
    if path = "/" || path = "/*" then
      { st with
        all := st.all ||
          (st.currentUserAgent = "*" || st.currentUserAgent = "")
        oai := st.oai || st.currentUserAgent = "oai-searchbot"
        gptbot := st.gptbot || st.currentUserAgent = "gptbot"
        chatgpt := st.chatgpt || st.currentUserAgent = "chatgpt-user" }
    else st
  else st

/-- `checkAICrawlerAccess` (lines 1535-1599). -/
def checkAICrawlerAccess (robotsTxt : Option String) : CrawlerAccess :=
  match robotsTxt with
  | none =>
    { allowsOAI := true, allowsGPTBot := true, allowsChatGPTUser := true
      hasRobotsTxt := false
      details := "No robots.txt found - all crawlers allowed by default" }
  | some txt =>
    let st := (splitCh '\n' txt).foldl robotsLineStep {}
    let allowsOAI := !st.oai && !st.all
    let allowsGPTBot := !st.gptbot && !st.all
    let allowsChatGPTUser := !st.chatgpt && !st.all
    let ds :=
      (if allowsOAI then [] else ["OAI-SearchBot blocked"]) ++
      (if allowsGPTBot then [] else ["GPTBot blocked"]) ++
      (if allowsChatGPTUser then [] else ["ChatGPT-User blocked"])
    let ds := if ds.isEmpty then ["All AI crawlers allowed"] else ds
    { allowsOAI, allowsGPTBot, allowsChatGPTUser, hasRobotsTxt := true
      details := String.intercalate ", " ds }

/-! ## Site discoverability score (schema-generator.ts lines 1659-1862) -/

/-- Test a check at every line start of the content (a multiline `^`). -/
def lineStartMatches (check : List Char → Bool) (content : String) : Bool :=
  let rec go (atStart : Bool) (l : List Char) : Bool :=
    match l with
    | [] => false
    | c :: rest => (atStart && check (c :: rest)) || go (c = '\n') rest
  go true content.data

/-- The tagline test `/^>\s*.+/m`: a line-initial `>` followed — after any
whitespace, which in JavaScript `\s*` may cross line breaks — by at least
one non-newline character; equivalently, some non-newline character occurs
after the `>`. -/
def hasTaglineSection (content : String) : Bool :=
  lineStartMatches
    (fun l =>
      match l with
      | '>' :: rest => rest.any (fun c => c ≠ '\n')
      | _ => false)
    content

/-- A `/^##\s*Word/mi` heading test: line-initial `##`, whitespace, then the
word case-insensitively (the whitespace run is maximal since the word starts
with a non-whitespace character). -/
def hasHeadingSection (word : String) (content : String) : Bool :=
  lineStartMatches
    (fun l =>
      startsC ['#', '#'] l &&
      startsCI word.data ((l.drop 2).dropWhile isWsJS))
    content

/-- An unanchored `/##\s*Word/i` test (lines 1771-1772 use no `^`). -/
def hasHeadingAnywhere (word : String) (content : String) : Bool :=
  (scanF
    (fun l =>
      if startsC ['#', '#'] l &&
          startsCI word.data ((l.drop 2).dropWhile isWsJS) then some ()
      else none)
    content.data).isSome

/-- `evaluateLlmsTxtQuality` (lines 1659-1673): at least 4 of the 5
sections is "complete", at least 2 is "partial", else "missing". -/
def evaluateLlmsTxtQuality (content : String) : String :=
  let sectionCount :=
    [hasTaglineSection content,
     hasHeadingSection "Products" content,
     hasHeadingSection "Categories" content,
     hasHeadingSection "About" content,
     hasHeadingSection "Key Pages" content].count true
  if sectionCount ≥ 4 then "complete"
  else if sectionCount ≥ 2 then "partial"
  else "missing"

/-- Organization-schema presence flags, as assembled by the aggregator. -/
structure OrgSchemaInfo where
  present : Bool := false
  hasName : Bool := false
  hasLogo : Bool := false
  hasSameAs : Bool := false
  hasDescription : Bool := false
  deriving Repr, DecidableEq

/-- `SiteDiscoverabilityBreakdown.llmsTxt`. -/
structure DLlmsTxt where
  points : Nat := 0
  max : Nat := 20
  present : Bool := false
  hasContent : Bool := false
  hasCategories : Bool := false
  hasProducts : Bool := false
  quality : String := "missing"
  deriving Repr, DecidableEq

/-- `SiteDiscoverabilityBreakdown.aiCrawlerAccess`. -/
structure DAiCrawler where
  points : Nat := 0
  max : Nat := 15
  allowsOAI : Bool := false
  allowsGPTBot : Bool := false
  allowsChatGPTUser : Bool := false
  hasRobotsTxt : Bool := false
  details : String := ""
  deriving Repr, DecidableEq

/-- `SiteDiscoverabilityBreakdown.sitemap`. -/
structure DSitemap where
  points : Nat := 0
  max : Nat := 15
  present : Bool := false
  productCount : Nat := 0
  urlCount : Nat := 0
  deriving Repr, DecidableEq

/-- `SiteDiscoverabilityBreakdown.organizationSchema`. -/
structure DOrgSchema where
  points : Nat := 0
  max : Nat := 15
  present : Bool := false
  hasName : Bool := false
  hasLogo : Bool := false
  hasSameAs : Bool := false
  hasDescription : Bool := false
  deriving Repr, DecidableEq

/-- `SiteDiscoverabilityBreakdown.categoryPresence`. -/
structure DCategoryPresence where
  points : Nat := 0
  max : Nat := 10
  categories : List String := []
  count : Nat := 0
  deriving Repr, DecidableEq

/-- `SiteDiscoverabilityBreakdown.brandConsistency`. -/
structure DBrandConsistency where
  points : Nat := 0
  max : Nat := 10
  consistent : Bool := false
  brandVariations : List String := []
  dominantBrand : Option String := none
  deriving Repr, DecidableEq

/-- `SiteDiscoverabilityBreakdown.technicalHealth`. -/
structure DTechnicalHealth where
  points : Nat := 0
  max : Nat := 10
  https : Bool := false
  accessible : Bool := false
  noMajorErrors : Bool := true
  deriving Repr, DecidableEq

/-- The informational-only entries (external mentions, domain authority). -/
structure DInfoEntry where
  measurable : Bool
  importance : String
  weight : String
  recommendation : String
  deriving Repr, DecidableEq

/-- `SiteDiscoverabilityBreakdown`. -/
structure SiteDiscBreakdown where
  llmsTxt : DLlmsTxt
  aiCrawlerAccess : DAiCrawler
  sitemap : DSitemap
  organizationSchema : DOrgSchema
  categoryPresence : DCategoryPresence
  brandConsistency : DBrandConsistency
  technicalHealth : DTechnicalHealth
  externalMentions : DInfoEntry
  domainAuthority : DInfoEntry
  deriving Repr, DecidableEq

/-- `SiteDiscoverabilityScore`. -/
structure SiteDiscScore where
  score : Nat
  max : Nat
  label : String
  breakdown : SiteDiscBreakdown
  deriving Repr, DecidableEq

/-- The parameter object of `calculateSiteDiscoverabilityScore`
(lines 1679-1695). -/
structure SiteDiscParams where
  robotsTxt : Option String
  aiCrawlerAccess : CrawlerAccess
  llmsTxt : Option String
  hasSitemap : Bool
  sitemapProductCount : Nat
  organizationSchema : OrgSchemaInfo
  categories : List String
  brandVariations : List String
  isHttps : Bool

/-- `calculateSiteDiscoverabilityScore` (lines 1679-1862). -/
def calculateSiteDiscoverabilityScore (params : SiteDiscParams) : SiteDiscScore :=
  -- 1. llms.txt (20 points)
  let llmsTxtB : DLlmsTxt :=
    match params.llmsTxt with
    | some content =>
      if content ≠ "" then
        let quality := evaluateLlmsTxtQuality content
        { present := true
          hasContent := content.length > 50
          hasCategories := hasHeadingAnywhere "Categories" content
          hasProducts := hasHeadingAnywhere "Products" content
          quality
          points :=
            if quality = "complete" then 20
            else if quality = "partial" then 12
            else 5 }
      else {}
    | none => {}
  -- 2. AI crawler access (15 points)
  let crawlerScore :=
    (if params.aiCrawlerAccess.allowsOAI then 5 else 0) +
    (if params.aiCrawlerAccess.allowsGPTBot then 5 else 0) +
    (if params.aiCrawlerAccess.allowsChatGPTUser then 5 else 0)
  let aiB : DAiCrawler :=
    { points := crawlerScore, max := 15
      allowsOAI := params.aiCrawlerAccess.allowsOAI
      allowsGPTBot := params.aiCrawlerAccess.allowsGPTBot
      allowsChatGPTUser := params.aiCrawlerAccess.allowsChatGPTUser
      hasRobotsTxt := params.aiCrawlerAccess.hasRobotsTxt
      details := params.aiCrawlerAccess.details }
  -- 3. Sitemap (15 points)
  let sitemapB : DSitemap :=
    { present := params.hasSitemap
      productCount := params.sitemapProductCount
      points :=
        if params.hasSitemap then
          if params.sitemapProductCount > 100 then 15
          else if params.sitemapProductCount > 20 then 10
          else 5
        else 0 }
  -- 4. Organization schema (15 points)
  let orgScore :=
    if params.organizationSchema.present then
      (if params.organizationSchema.hasName then 5 else 0) +
      (if params.organizationSchema.hasLogo then 4 else 0) +
      (if params.organizationSchema.hasSameAs then 4 else 0) +
      (if params.organizationSchema.hasDescription then 2 else 0)
    else 0
  let orgB : DOrgSchema :=
    { points := orgScore
      present := params.organizationSchema.present
      hasName := params.organizationSchema.hasName
      hasLogo := params.organizationSchema.hasLogo
      hasSameAs := params.organizationSchema.hasSameAs
      hasDescription := params.organizationSchema.hasDescription }
  -- 5. Category presence (10 points)
  let catB : DCategoryPresence :=
    { categories := params.categories
      count := params.categories.length
      points :=
        if params.categories.length > 0 then
          min 10 (params.categories.length * 2)
        else 0 }
  -- 6. Brand consistency (10 points)
  let brandB : DBrandConsistency :=
    { brandVariations := params.brandVariations
      consistent := params.brandVariations.length ≤ 1
      dominantBrand :=
        match params.brandVariations.head? with
        | some b => if b ≠ "" then some b else none
        | none => none
      points :=
        if params.brandVariations.length = 1 then 10
        else if params.brandVariations.length ≤ 3 then 5
        else 0 }
  -- 7. Technical health (10 points)
  let techB : DTechnicalHealth :=
    { https := params.isHttps, accessible := true
      points := if params.isHttps then 10 else 0 }
  let totalScore :=
    llmsTxtB.points + crawlerScore + sitemapB.points + orgScore +
      catB.points + brandB.points + techB.points
  let label :=
    if totalScore ≥ 80 then "Excellent"
    else if totalScore ≥ 60 then "Good"
    else if totalScore ≥ 40 then "Fair"
    else "Poor"
  { score := min 100 totalScore, max := 100, label
    breakdown :=
      { llmsTxt := llmsTxtB, aiCrawlerAccess := aiB, sitemap := sitemapB
        organizationSchema := orgB, categoryPresence := catB
        brandConsistency := brandB, technicalHealth := techB
        externalMentions :=
          { measurable := false, importance := "high", weight := "15%"
            recommendation := "Get mentioned on Reddit, review sites, and forums. Third-party mentions are a strong signal for LLM discoverability." }
        domainAuthority :=
          { measurable := false, importance := "medium", weight := "10%"
            recommendation := "Build backlinks and get featured in Wikipedia and industry publications." } } }

/-! ## Aggregation (src/src/app/api/analyze/route.ts lines 920-986 and
988-1328)

`aggregateResults` is embedded up to the point where its result record is
assembled, covering the counting, the fixed factor list, the ordered
recommendation list, the discovery prompts, the site-discoverability score,
the product-extractability average with its first-page fallback, the legacy
blended score and the URL-type detection.  The artifact-generation values
(lines 1273-1282: the manifest text, organization schema and the schema
snippets of up to five product pages) are not materialised in the result —
no claim reads them — but the `new URL(page.url)` parses they perform per
analyzed page are kept as `checkPageUrlsE`, so the embedding fails exactly
where the source throws.

`calculateProductExtractabilityScore` (imported at route.ts line 6, called
at lines 1241/1248) is not defined anywhere under src/ — schema-generator.ts
ends at its section header (line 1866).  The embedding is therefore
parametric in that scorer, and a spec-modelled instance is provided
separately. -/

/-- One row of `aggregateFactors` (types.ts lines 411-416). -/
structure Factor where
  name : String
  score : Nat
  status : String
  details : String
  deriving Repr, DecidableEq

/-- One row of `aggregateRecommendations` (types.ts lines 417-422). -/
structure Recommendation where
  title : String
  description : String
  priority : String
  affectedPages : Nat
  deriving Repr, DecidableEq

/-- One `llmDiscoveryPrompts` category. -/
structure PromptCategory where
  category : String
  prompts : List String
  likelihood : String
  deriving Repr, DecidableEq

/-- `generateLLMDiscoveryPrompts` (route.ts lines 920-986). -/
def generateLLMDiscoveryPrompts (pages : List Page) (domain : String) :
    List PromptCategory :=
  let firstSeg := (splitCh '.' domain).headD ""
  let cand := dashToSpace firstSeg
  let brandName := if cand ≠ "" then cand else "this store"
  let mainPage := pages.head?
  let brandCat : PromptCategory :=
    { category := "Brand Discovery"
      prompts :=
        [s!"What is {brandName}?",
         s!"Tell me about {brandName} online store",
         s!"Is {brandName} a legitimate website?",
         s!"{brandName} reviews and ratings"]
      likelihood :=
        match mainPage with
        | some p => if p.schemas.hasOrganizationSchema then "high" else "medium"
        | none => "medium" }
  let productCats : List PromptCategory :=
    if pages.any (fun p => p.schemas.hasProductSchema) then
      [{ category := "Product Discovery"
         prompts :=
           [s!"Best products on {brandName}",
            s!"What does {brandName} sell?",
            s!"{brandName} product categories",
            s!"Popular items on {brandName}"]
         likelihood := "high" }]
    else []
  let comparisonCat : PromptCategory :=
    { category := "Comparison Shopping"
      prompts :=
        [s!"{brandName} vs competitors",
         s!"Is {brandName} cheaper than Amazon?",
         s!"Best place to buy [product] - does {brandName} have it?",
         s!"{brandName} alternatives"]
      likelihood := "medium" }
  let trustCat : PromptCategory :=
    { category := "Trust & Credibility"
      prompts :=
        [s!"Is {brandName} trustworthy?",
         s!"{brandName} customer service reviews",
         s!"Has anyone bought from {brandName}?",
         s!"{brandName} scam or legit"]
      likelihood :=
        if pages.any (fun p => p.schemas.hasOrganizationSchema) then "high"
        else "medium" }
  let avgWordCount : ℚ :=
    mkRat ((pages.map (fun p => p.wordCount)).sum) (jsOrNat pages.length 1)
  let infoCats : List PromptCategory :=
    if avgWordCount > 500 then
      [{ category := "Informational Queries"
         prompts :=
           [s!"How to use products from {brandName}",
            s!"{brandName} buying guide",
            s!"What should I know before buying from {brandName}"]
         likelihood := "medium" }]
    else []
  [brandCat] ++ productCats ++ [comparisonCat] ++ [trustCat] ++ infoCats

/-- Percentage `totalPages > 0 ? Math.round(x / totalPages * 100) : 0`. -/
def pctOf (x totalPages : Nat) : Nat :=
  if totalPages > 0 then (jsRound (mkRat (x * 100) totalPages)).toNat
  else 0

/-- The `(x / totalPages) >= 0.8 ? good : >= 0.5 ? warning : poor` band;
with zero pages the JavaScript ratio is NaN and both comparisons are false,
so the status is "poor". -/
def bandStatus (x totalPages : Nat) : String :=
  if totalPages = 0 then "poor"
  else
    let r : ℚ := mkRat x totalPages
    if r ≥ mkRat 4 5 then "good" else if r ≥ mkRat 1 2 then "warning" else "poor"

/-- The model of the missing product-extractability scorer: an outcome for
`calculateProductExtractabilityScore(pages[0])`, where `none` stands for
the JavaScript `undefined` passed when the page list is empty. -/
abbrev ProductScorer := Option Page → Except String Nat

/-- Modelled from the spec: `calculateProductExtractabilityScore` is
imported by the aggregator (route.ts line 6) but its definition is missing
from src/ (schema-generator.ts breaks off at its section header).  Per spec
sections 4.4 and 4.6 it is the per-page scorer of the two-layer model — a
pure function of the page's signals — so applying it to the `undefined`
produced by `pages[0]` on an empty list fails with a TypeError, and on a
real page it scores that page (modelled by the in-src extractability
scorer).  The aggregator embedding is parametric in this scorer, so the
empty-page-list theorem holds for every possible scorer. -/
def calculateProductExtractabilityScoreM : ProductScorer
  | none => Except.error "TypeError: Cannot read properties of undefined"
  | some p => (calculateExtractabilityScoreE p).map (·.score)

/-- The `new URL(page.url)` parses performed per analyzed page by the
artifact-generation steps (route.ts lines 1273-1282, via
generateLlmsTxt line 1080 and generateSchemaForPage line 1293). -/
def checkPageUrlsE (pages : List Page) : Except String Unit :=
  pages.forM (fun p => do
    let _ ← parseURLE p.url
    pure ())

/-- The aggregate result fields the claims read (the full `SiteAnalysis`
additionally carries the raw inputs back and the generated artifacts). -/
structure AggregateLite where
  totalPages : Nat
  factors : List Factor
  recommendations : List Recommendation
  prompts : List PromptCategory
  siteDiscoverability : SiteDiscScore
  productExtractabilityScore : Nat
  aggregateScore : Nat
  analyzedUrlType : String
  analyzedSingleProduct : Bool
  deriving Repr, DecidableEq

/-- The per-crawl page counts the aggregator derives (route.ts lines
996-1041). -/
structure AggCounts where
  totalPages : Nat
  productPages : Nat
  organizationPages : Nat
  faqPages : Nat
  reviewPages : Nat
  pagesWithSchema : Nat
  pagesWithoutSchema : Nat
  pagesWithMetaDesc : Nat
  pagesWithProperH1 : Nat
  pagesWithOG : Nat
  pagesWithAltText : Nat
  deriving Repr, DecidableEq

/-- The counting pass of `aggregateResults` (route.ts lines 996-1041). -/
def aggCountsOf (pages : List Page) : AggCounts :=
  let totalPages := pages.length
  let pagesWithSchema := (pages.filter (fun p => p.jsonLdScripts.length > 0)).length
  { totalPages
    productPages := (pages.filter (fun p => p.schemas.hasProductSchema)).length
    organizationPages := (pages.filter (fun p => p.schemas.hasOrganizationSchema)).length
    faqPages := (pages.filter (fun p => p.schemas.hasFAQSchema)).length
    reviewPages := (pages.filter (fun p => p.reviews.hasReviews)).length
    pagesWithSchema
    pagesWithoutSchema := totalPages - pagesWithSchema
    pagesWithMetaDesc := (pages.filter (fun p => p.metaDescription.length ≥ 120)).length
    pagesWithProperH1 := (pages.filter (fun p => p.headings.h1 = 1)).length
    pagesWithOG := (pages.filter (fun p => p.openGraph.length ≥ 4)).length
    pagesWithAltText :=
      (pages.filter (fun p => p.images.total = 0 || p.images.withoutAlt = 0)).length }

/-- The fixed `aggregateFactors` list (route.ts lines 1043-1111): always
these ten rows, in this order. -/
def aggregateFactorsOf (c : AggCounts)
    (robotsTxt sitemapXml llmsTxt : Option String)
    (sitemapCount : Nat) : List Factor :=
  [{ name := "Schema Coverage", score := pctOf c.pagesWithSchema c.totalPages
     status := bandStatus c.pagesWithSchema c.totalPages
     details := toString c.pagesWithSchema ++ "/" ++ toString c.totalPages ++
       " pages have structured data" },
   { name := "Product Schema", score := pctOf c.productPages c.totalPages
     status := if c.productPages > 0 then "good" else "poor"
     details := "Product schema on " ++ toString c.productPages ++ " pages" },
   { name := "Review/Rating Schema", score := pctOf c.reviewPages c.totalPages
     status := if c.reviewPages > 0 then "good" else "warning"
     details := "Review/rating schema on " ++ toString c.reviewPages ++ " pages" },
   { name := "Meta Descriptions", score := pctOf c.pagesWithMetaDesc c.totalPages
     status := bandStatus c.pagesWithMetaDesc c.totalPages
     details := toString c.pagesWithMetaDesc ++ "/" ++ toString c.totalPages ++
       " pages have good meta descriptions" },
   { name := "Open Graph Tags", score := pctOf c.pagesWithOG c.totalPages
     status := bandStatus c.pagesWithOG c.totalPages
     details := toString c.pagesWithOG ++ "/" ++ toString c.totalPages ++
       " pages have OG tags" },
   { name := "Heading Structure", score := pctOf c.pagesWithProperH1 c.totalPages
     status := bandStatus c.pagesWithProperH1 c.totalPages
     details := toString c.pagesWithProperH1 ++ "/" ++ toString c.totalPages ++
       " pages have proper H1" },
   { name := "Image Alt Text", score := pctOf c.pagesWithAltText c.totalPages
     status := bandStatus c.pagesWithAltText c.totalPages
     details := toString c.pagesWithAltText ++ "/" ++ toString c.totalPages ++
       " pages have all images with alt" },
   { name := "robots.txt", score := if truthyOS robotsTxt then 100 else 0
     status := if truthyOS robotsTxt then "good" else "poor"
     details := if truthyOS robotsTxt then "robots.txt found" else "No robots.txt" },
   { name := "Sitemap", score := if truthyOS sitemapXml then 100 else 0
     status := if truthyOS sitemapXml then "good" else "warning"
     details := if sitemapCount > 0 then
         "Found " ++ toString sitemapCount ++ " sitemap(s)"
       else "No sitemap found" },
   { name := "llms.txt", score := if truthyOS llmsTxt then 100 else 0
     status := if truthyOS llmsTxt then "good" else "warning"
     details := if truthyOS llmsTxt then "llms.txt found - optimized for LLMs"
       else "No llms.txt (recommended for AI visibility)" }]

/-- The `aggregateRecommendations` list (route.ts lines 1113-1185): eight
independently evaluated conditions, pushed in source order. -/
def aggregateRecommendationsOf (c : AggCounts) (llmsTxt : Option String) :
    List Recommendation :=
  let missingMeta := c.totalPages - c.pagesWithMetaDesc
  let missingH1 := c.totalPages - c.pagesWithProperH1
  let missingOG := c.totalPages - c.pagesWithOG
  (if !truthyOS llmsTxt then
    [{ title := "Add llms.txt File"
       description := "Create an llms.txt file at your site root to provide structured information specifically for LLMs. This is becoming the standard for AI discoverability."
       priority := "high", affectedPages := 0 }] else []) ++
  (if c.pagesWithoutSchema > 0 then
    [{ title := "Add Structured Data to More Pages"
       description := toString c.pagesWithoutSchema ++
         " pages are missing JSON-LD structured data. Add schema.org markup to improve discoverability."
       priority := "high", affectedPages := c.pagesWithoutSchema }] else []) ++
  (if c.productPages = 0 then
    [{ title := "Add Product Schema"
       description := "No product pages found with Product schema. This is critical for e-commerce LLM visibility."
       priority := "high", affectedPages := c.totalPages }] else []) ++
  (if c.organizationPages = 0 then
    [{ title := "Add Organization Schema"
       description := "Add Organization or LocalBusiness schema to at least your homepage to establish brand identity."
       priority := "medium", affectedPages := 1 }] else []) ++
  (if c.pagesWithMetaDesc < c.totalPages then
    [{ title := "Improve Meta Descriptions"
       description := toString missingMeta ++
         " pages need better meta descriptions (120-160 characters)."
       priority := "high", affectedPages := missingMeta }] else []) ++
  (if c.pagesWithProperH1 < c.totalPages then
    [{ title := "Fix Heading Structure"
       description := toString missingH1 ++ " pages have missing or multiple H1 tags."
       priority := "medium", affectedPages := missingH1 }] else []) ++
  (if c.faqPages = 0 then
    [{ title := "Add FAQ Schema"
       description := "No FAQ schema found. Add FAQ sections with schema markup to appear in AI-generated answers."
       priority := "medium", affectedPages := 0 }] else []) ++
  (if c.pagesWithOG < c.totalPages then
    [{ title := "Add Open Graph Tags"
       description := toString missingOG ++ " pages are missing complete OG tags."
       priority := "low", affectedPages := missingOG }] else [])

/-- Brand variations (route.ts lines 1192-1200): an insertion-ordered set
of all H1 texts and first title segments, filtered to length > 2, first
five kept. -/
def brandVariationsOf (pages : List Page) : List String :=
  let brandSet :=
    pages.foldl
      (fun acc p =>
        let acc := p.h1Texts.foldl
          (fun a h1 => if h1 ∈ a then a else a ++ [h1]) acc
        let b := trimJS (((splitCh '|' p.title).headD "" |> splitCh '-').headD "")
        if b ∈ acc then acc else acc ++ [b])
      ([] : List String)
  (brandSet.filter (fun b => b.length > 2)).take 5

/-- Categories (route.ts lines 1202-1209): an insertion-ordered set of all
breadcrumb entries. -/
def categoriesOf (pages : List Page) : List String :=
  pages.foldl
    (fun acc p =>
      p.breadcrumbs.foldl (fun a b => if b ∈ a then a else a ++ [b]) acc)
    ([] : List String)

/-- Organization-schema info (route.ts lines 1211-1219): from the first
page with organization schema, else the first homepage, else the first
page. -/
def organizationSchemaInfoOf (pages : List Page) : OrgSchemaInfo :=
  let orgPage : Option Page :=
    match pages.find? (fun p => p.schemas.hasOrganizationSchema) with
    | some p => some p
    | none =>
      match pages.find? (fun p => p.pageType = some PageType.homepage) with
      | some p => some p
      | none => pages.head?
  { present := (orgPage.map (fun p => p.schemas.hasOrganizationSchema)).getD false
    hasName := (orgPage.map (fun p => p.title != "")).getD false
    hasLogo := (orgPage.map (fun p => truthyOS (ogGet p.openGraph "image"))).getD false
    hasSameAs := false
    hasDescription := (orgPage.map (fun p => p.metaDescription != "")).getD false }

/-- The product-extractability step (route.ts lines 1234-1251): the rounded
average of the scorer over the pages classified product; with none, the
scorer is applied to `pages[0]` — the JavaScript `undefined` when the page
list is empty. -/
def productExtractabilityStepE (scorer : ProductScorer) (pages : List Page) :
    Except String Nat :=
  let productPageList := pages.filter (fun p => p.pageType = some PageType.product)
  if productPageList.length > 0 then do
    let scores ← productPageList.mapM (fun p => scorer (some p))
    pure (jsRound (mkRat scores.sum scores.length)).toNat
  else
    scorer pages.head?

/-- `aggregateResults` (route.ts lines 988-1328), parametric in the missing
product-extractability scorer; see the section comment for the covered
slice. -/
def aggregateResultsE (scorer : ProductScorer) (pages : List Page)
    (domain : String) (robotsTxt sitemapXml llmsTxt : Option String)
    (sitemapUrls : List String) : Except String AggregateLite := do
  let c := aggCountsOf pages
  let factors := aggregateFactorsOf c robotsTxt sitemapXml llmsTxt sitemapUrls.length
  let recommendations := aggregateRecommendationsOf c llmsTxt
  let prompts := generateLLMDiscoveryPrompts pages domain
  let aiCrawlerAccess := checkAICrawlerAccess robotsTxt
  let siteDiscoverability := calculateSiteDiscoverabilityScore
    { robotsTxt, aiCrawlerAccess, llmsTxt
      hasSitemap := truthyOS sitemapXml
      sitemapProductCount := sitemapUrls.length
      organizationSchema := organizationSchemaInfoOf pages
      categories := categoriesOf pages
      brandVariations := brandVariationsOf pages
      isHttps := (pages.head?.map (fun p => startsWithS p.url "https")).getD false }
  let productExtractabilityScore ← productExtractabilityStepE scorer pages
  let aggregateScore :=
    (jsRound (mkRat (siteDiscoverability.score + productExtractabilityScore) 2)).toNat
  -- Artifact generation (lines 1273-1282): only its URL parses are kept.
  checkPageUrlsE pages
  -- URL type detection (lines 1288-1291).
  let urlTypeAnalysis ← detectUrlTypeE ((pages.head?.map (fun p => p.url)).getD "")
  pure
    { totalPages := c.totalPages, factors, recommendations, prompts
      siteDiscoverability, productExtractabilityScore, aggregateScore
      analyzedUrlType := urlTypeAnalysis.utype
      analyzedSingleProduct :=
        urlTypeAnalysis.utype = "product" && pages.length = 1 }

/-! ## Auxiliary definitions for the claims -/

/-- Replace the offer price carried by every structured-data object of a
page, leaving every other signal unchanged; used to state that the offer
price is never read. -/
def setOfferPrice (page : Page) (v : Option String) : Page :=
  { page with
    jsonLdScripts := page.jsonLdScripts.map (fun o => { o with price := v }) }

/-- A crawled product page whose structured data carries an offer price of
999 while its visible text contains "$50 off": the scenario of the
structured-data-preference claim.  As in the pipeline (route.ts line 664),
`contentExtraction` is not precomputed and the page type is resolved by the
classifier. -/
def offerPricePage : Page :=
  { url := "https://shop.example/products/mouse"
    title := "Wireless Mouse - Save $50 off today"
    jsonLdScripts := [{ price := some "999" }]
    schemas := { hasProductSchema := true, hasOfferSchema := true } }

/-- The page the round-trip claim generates a Product snippet from: a
product page whose extraction found the text price $29.99 and whose name is
its title. -/
def roundTripSource : Page :=
  { url := "https://shop.example/products/mouse"
    title := "Wireless Mouse"
    metaDescription := "A great wireless mouse with long battery life"
    openGraph := [("image", "https://shop.example/img/mouse.jpg")]
    schemas := { hasProductSchema := true, hasOfferSchema := true }
    pageType := some PageType.product
    contentExtraction := some
      { price := { value := some (mkRat 2999 100), currency := some "USD",
                   source := some "text", rawText := some "$29.99" } } }

/-- The generated snippet fed back: a page whose only signals are the
generated Product JSON-LD (carrying name and offer price 29.99) and the
schema-presence flags it implies — the JSON-LD is embedded metadata, not
visible text, so title/meta/H1 are empty. -/
def roundTripFedBack : Page :=
  { url := "https://shop.example/products/mouse"
    jsonLdScripts := [{ price := some "29.99" }]
    schemas := { hasProductSchema := true, hasOfferSchema := true }
    pageType := some PageType.product }

/-- A visible body text containing a call-to-action phrase. -/
def ctaBodyText : String :=
  "Hurry! Add to cart today for free shipping."

/-- A product page crawled from a document whose visible body text is
`ctaBodyText`: as at route.ts line 664, the extractor receives only the
title, meta description and H1 texts — the body text never reaches it. -/
def ctaPage : Page :=
  { url := "https://shop.example/products/widget"
    title := "Blue Widget"
    pageType := some PageType.product }

/-- A page whose title does contain call-to-action phrases, for the
amended purchase-affordance claim. -/
def ctaTitlePage : Page :=
  { url := "https://shop.example/products/widget"
    title := "Blue Widget - Buy Now! Add to cart, or buy now in store"
    pageType := some PageType.product }

/-- The extraction computed for `ctaTitlePage`. -/
def ctaTitleExtraction : ContentExtraction :=
  match extractAllContentE ctaTitlePage with
  | Except.ok e => e
  | Except.error _ => {}

/-- A page with three quote-ready snippets and FAQ schema, so that
`generateSchemaForPage` emits an FAQPage snippet. -/
def faqPage : Page :=
  { url := "https://shop.example/faq"
    quoteReadySnippets :=
      ["We offer free shipping on all orders over 50 dollars within 3 days",
       "Our support team is available around the clock on 7 days",
       "This product includes a 2 year warranty and 30 day returns"]
    schemas := { hasFAQSchema := true } }

/-- A product page carrying both a GTIN and an MPN in its structured data
(the identifier-precedence scenario). -/
def gtinMpnPage : Page :=
  { url := "https://shop.example/products/mouse"
    title := "Wireless Mouse"
    jsonLdScripts := [{ gtin := some "X", mpn := some "Y" }]
    schemas := { hasProductSchema := true }
    pageType := some PageType.product
    contentExtraction := some {} }

/-- A product page with offer schema but no text price anywhere in title,
meta description or H1 texts. -/
def offerNoTextPricePage : Page :=
  { url := "https://shop.example/products/mouse"
    title := "Wireless Mouse"
    metaDescription := "A great wireless mouse"
    h1Texts := ["Wireless Mouse"]
    schemas := { hasProductSchema := true, hasOfferSchema := true }
    jsonLdScripts := [{ price := some "999" }]
    pageType := some PageType.product }

/-- A plain product page used as the witness input of the score-invariant
claim. -/
def witnessScorePage : Page :=
  { url := "https://shop.example/products/mouse"
    title := "Wireless Mouse"
    metaDescription := String.intercalate " " (List.replicate 20 "good mouse")
    h1Texts := ["Wireless Mouse"]
    images := { total := 2, withAlt := 2, withoutAlt := 0 }
    semanticElements := { table := 1 }
    schemas := { hasProductSchema := true }
    pageType := some PageType.product
    contentExtraction := some {} }

/-- A blog page used as the witness input of the not-applicable claim. -/
def witnessBlogPage : Page :=
  { url := "https://shop.example/blog/news"
    title := "Our news"
    pageType := some PageType.blog
    contentExtraction := some {} }

/-- The schema-snippet list generated for `faqPage`. -/
def faqPageSchemasList : List GeneratedSchema :=
  match generateSchemaForPageE faqPage with
  | Except.ok l => l
  | Except.error _ => []

/-- The FAQPage snippet generated for `faqPage` (its second snippet). -/
def faqPageSnippet : GeneratedSchema :=
  faqPageSchemasList.getD 1
    { stype := "", jsonLd := SchemaJson.faqPage [], confidence := ""
      fieldsExtracted := [], fieldsMissing := [], suggestions := []
      sourceUrl := "" }

/-! ## Inversion lemmas -/

/-- A successful scorer run is the pure scoring body applied to some
resolved page type and extraction. -/
theorem scoreE_ok_elim {page : Page} {r : ExtractabilityScore}
    (h : calculateExtractabilityScoreE page = Except.ok r) :
    ∃ pt ext,
      r = calcExtractability page pt ext (extractIdentifiers page.jsonLdScripts) := by
  unfold calculateExtractabilityScoreE at h
  cases hpt : page.pageType with
  | some t =>
    rw [hpt] at h
    cases hce : page.contentExtraction with
    | some e =>
      rw [hce] at h
      simp only [bind, Except.bind, pure, Except.pure, Except.ok.injEq] at h
      exact ⟨t, e, h.symm⟩
    | none =>
      rw [hce] at h
      cases hext : extractAllContentE page with
      | error msg =>
        rw [hext] at h
        exact absurd h (by simp [bind, Except.bind, pure, Except.pure])
      | ok e =>
        rw [hext] at h
        simp only [bind, Except.bind, pure, Except.pure, Except.ok.injEq] at h
        exact ⟨t, e, h.symm⟩
  | none =>
    rw [hpt] at h
    cases hdet : detectPageTypeE page.url page.schemas with
    | error msg =>
      rw [hdet] at h
      exact absurd h (by simp [bind, Except.bind, pure, Except.pure])
    | ok t =>
      rw [hdet] at h
      cases hce : page.contentExtraction with
      | some e =>
        rw [hce] at h
        simp only [bind, Except.bind, pure, Except.pure, Except.ok.injEq] at h
        exact ⟨t, e, h.symm⟩
      | none =>
        rw [hce] at h
        cases hext : extractAllContentE page with
        | error msg =>
          rw [hext] at h
          exact absurd h (by simp [bind, Except.bind, pure, Except.pure])
        | ok e =>
          rw [hext] at h
          simp only [bind, Except.bind, pure, Except.pure, Except.ok.injEq] at h
          exact ⟨t, e, h.symm⟩

/-- The page type recorded in the breakdown is the one scoring ran with. -/
theorem calc_detectedType (page : Page) (pt : PageType)
    (ext : ContentExtraction) (ids : Identifiers) :
    (calcExtractability page pt ext ids).breakdown.pageContext.detectedType = pt := by
  cases pt <;> rfl

/-- A successful extraction is the pure extraction body applied to some
category pair. -/
theorem extractAllContentE_ok_elim {page : Page} {ext : ContentExtraction}
    (h : extractAllContentE page = Except.ok ext) :
    ∃ cat, ext = extractAllContentCore page cat := by
  unfold extractAllContentE at h
  cases hc : categoryOfE page with
  | error msg =>
    rw [hc] at h
    exact absurd h (by simp [bind, Except.bind])
  | ok cat =>
    rw [hc] at h
    simp only [bind, Except.bind, pure, Except.pure, Except.ok.injEq] at h
    exact ⟨cat, h.symm⟩

/-- A successful scorer run on a page without a precomputed extraction is
the pure scoring body applied to an extraction the content extractor
computed for some category pair. -/
theorem scoreE_ok_elim_extracted {page : Page} {r : ExtractabilityScore}
    (hce : page.contentExtraction = none)
    (h : calculateExtractabilityScoreE page = Except.ok r) :
    ∃ pt cat,
      r = calcExtractability page pt (extractAllContentCore page cat)
        (extractIdentifiers page.jsonLdScripts) := by
  unfold calculateExtractabilityScoreE at h
  rw [hce] at h
  cases hpt : page.pageType with
  | some t =>
    rw [hpt] at h
    cases hext : extractAllContentE page with
    | error msg =>
      rw [hext] at h
      exact absurd h (by simp [bind, Except.bind, pure, Except.pure])
    | ok e =>
      rw [hext] at h
      simp only [bind, Except.bind, pure, Except.pure, Except.ok.injEq] at h
      obtain ⟨cat, hcat⟩ := extractAllContentE_ok_elim hext
      rw [hcat] at h
      exact ⟨t, cat, h.symm⟩
  | none =>
    rw [hpt] at h
    cases hdet : detectPageTypeE page.url page.schemas with
    | error msg =>
      rw [hdet] at h
      exact absurd h (by simp [bind, Except.bind, pure, Except.pure])
    | ok t =>
      rw [hdet] at h
      cases hext : extractAllContentE page with
      | error msg =>
        rw [hext] at h
        exact absurd h (by simp [bind, Except.bind, pure, Except.pure])
      | ok e =>
        rw [hext] at h
        simp only [bind, Except.bind, pure, Except.pure, Except.ok.injEq] at h
        obtain ⟨cat, hcat⟩ := extractAllContentE_ok_elim hext
        rw [hcat] at h
        exact ⟨t, cat, h.symm⟩

/-- A truthy identifier survives the guarded assignment. -/
theorem idUpd_keeps (cur v : Option String) (h : truthyOS cur = true) :
    truthyOS (idUpd cur v) = true := by
  unfold idUpd
  simp [h]

/-- The guarded assignment of a truthy value yields a truthy identifier. -/
theorem idUpd_new (cur v : Option String) (h : truthyOS v = true) :
    truthyOS (idUpd cur v) = true := by
  unfold idUpd
  cases hcur : truthyOS cur <;> simp [h, hcur]

/-- The per-object identifier step preserves a truthy gtin. -/
theorem idStep_gtin_keeps (st : Identifiers) (o : JsonLdObj)
    (h : truthyOS st.gtin = true) : truthyOS (idStep st o).gtin = true :=
  idUpd_keeps _ _ (idUpd_keeps _ _ (idUpd_keeps _ _ (idUpd_keeps _ _ h)))

/-- An object carrying a truthy gtin key makes the step's gtin truthy. -/
theorem idStep_gtin_new (st : Identifiers) (o : JsonLdObj)
    (h : truthyOS o.gtin = true) : truthyOS (idStep st o).gtin = true :=
  idUpd_keeps _ _ (idUpd_keeps _ _ (idUpd_keeps _ _ (idUpd_new _ _ h)))

/-- The per-object identifier step preserves a truthy mpn. -/
theorem idStep_mpn_keeps (st : Identifiers) (o : JsonLdObj)
    (h : truthyOS st.mpn = true) : truthyOS (idStep st o).mpn = true :=
  idUpd_keeps _ _ h

/-- An object carrying a truthy mpn key makes the step's mpn truthy. -/
theorem idStep_mpn_new (st : Identifiers) (o : JsonLdObj)
    (h : truthyOS o.mpn = true) : truthyOS (idStep st o).mpn = true :=
  idUpd_new _ _ h

/-- Folding the identifier step over a list that contains an object with a
truthy gtin yields a truthy gtin. -/
theorem foldl_idStep_gtin (l : List JsonLdObj) :
    ∀ st : Identifiers,
      truthyOS st.gtin = true ∨ (∃ o ∈ l, truthyOS o.gtin = true) →
      truthyOS ((l.foldl idStep st).gtin) = true := by
  induction l with
  | nil =>
    intro st h
    rcases h with h | ⟨o, ho, _⟩
    · exact h
    · exact absurd ho (List.not_mem_nil o)
  | cons x xs ih =>
    intro st h
    rw [List.foldl_cons]
    apply ih
    rcases h with h | ⟨o, ho, hg⟩
    · exact Or.inl (idStep_gtin_keeps st x h)
    · rcases List.mem_cons.mp ho with rfl | ho2
      · exact Or.inl (idStep_gtin_new st _ hg)
      · exact Or.inr ⟨o, ho2, hg⟩

/-- Folding the identifier step over a list that contains an object with a
truthy mpn yields a truthy mpn. -/
theorem foldl_idStep_mpn (l : List JsonLdObj) :
    ∀ st : Identifiers,
      truthyOS st.mpn = true ∨ (∃ o ∈ l, truthyOS o.mpn = true) →
      truthyOS ((l.foldl idStep st).mpn) = true := by
  induction l with
  | nil =>
    intro st h
    rcases h with h | ⟨o, ho, _⟩
    · exact h
    · exact absurd ho (List.not_mem_nil o)
  | cons x xs ih =>
    intro st h
    rw [List.foldl_cons]
    apply ih
    rcases h with h | ⟨o, ho, hg⟩
    · exact Or.inl (idStep_mpn_keeps st x h)
    · rcases List.mem_cons.mp ho with rfl | ho2
      · exact Or.inl (idStep_mpn_new st _ hg)
      · exact Or.inr ⟨o, ho2, hg⟩

/-- A truthy gtin anywhere in the structured data makes the extracted
identifiers' gtin truthy. -/
theorem extractIdentifiers_gtin (l : List JsonLdObj)
    (h : ∃ o ∈ l, truthyOS o.gtin = true) :
    truthyOS (extractIdentifiers l).gtin = true :=
  foldl_idStep_gtin l {} (Or.inr h)

/-- A truthy mpn anywhere in the structured data makes the extracted
identifiers' mpn truthy. -/
theorem extractIdentifiers_mpn (l : List JsonLdObj)
    (h : ∃ o ∈ l, truthyOS o.mpn = true) :
    truthyOS (extractIdentifiers l).mpn = true :=
  foldl_idStep_mpn l {} (Or.inr h)

/-- Replacing every offer price leaves the identifier fold unchanged: the
step never reads the price key. -/
theorem foldl_idStep_map_price (v : Option String) (l : List JsonLdObj) :
    ∀ st : Identifiers,
      (l.map (fun o => { o with price := v })).foldl idStep st =
        l.foldl idStep st := by
  induction l with
  | nil => intro st; rfl
  | cons x xs ih =>
    intro st
    rw [List.map_cons, List.foldl_cons, List.foldl_cons]
    exact ih (idStep st x)

/-- A breadcrumb snippet, when one is produced, is typed BreadcrumbList
with confidence "high" and no missing fields. -/
theorem breadcrumbE_ok_some {page : Page} {bs : GeneratedSchema}
    (h : generateBreadcrumbSchemaFromPageE page = Except.ok (some bs)) :
    bs.stype = "BreadcrumbList" ∧ bs.confidence = "high" ∧
      bs.fieldsMissing = [] := by
  unfold generateBreadcrumbSchemaFromPageE at h
  cases hu : parseURLE page.url with
  | error e =>
    rw [hu] at h
    exact absurd h (by simp [bind, Except.bind])
  | ok u =>
    rw [hu] at h
    simp only [bind, Except.bind] at h
    split at h
    · simp [pure, Except.pure] at h
    · simp only [pure, Except.pure, Except.ok.injEq, Option.some.injEq] at h
      subst h
      exact ⟨rfl, rfl, rfl⟩

/-- An FAQ snippet, when one is produced, is typed FAQPage with the
hardcoded confidence "low" and no missing fields. -/
theorem faqSchema_some {page : Page} {fs : GeneratedSchema}
    (h : generateFAQSchemaFromPage page = some fs) :
    fs.stype = "FAQPage" ∧ fs.confidence = "low" ∧ fs.fieldsMissing = [] := by
  unfold generateFAQSchemaFromPage at h
  dsimp only at h
  split at h
  · exact Option.noConfusion h
  · simp only [Option.some.injEq] at h
    subst h
    exact ⟨rfl, rfl, rfl⟩

/-- The insertion-ordered deduplication step keeps lists duplicate-free. -/
theorem dedupAux_nodup (l : List String) :
    ∀ acc : List String, acc.Nodup →
      (l.foldl (fun acc x => if x ∈ acc then acc else acc ++ [x]) acc).Nodup := by
  induction l with
  | nil => intro acc h; exact h
  | cons x xs ih =>
    intro acc h
    simp only [List.foldl]
    by_cases hx : x ∈ acc
    · rw [if_pos hx]; exact ih acc h
    · rw [if_neg hx]
      refine ih _ ?_
      simp [List.nodup_append, h, hx]

/-- Membership is preserved by the deduplication fold. -/
theorem dedupAux_mem (b : String) (l : List String) :
    ∀ acc : List String,
      (b ∈ l.foldl (fun acc x => if x ∈ acc then acc else acc ++ [x]) acc ↔
        b ∈ acc ∨ b ∈ l) := by
  induction l with
  | nil => intro acc; simp
  | cons x xs ih =>
    intro acc
    simp only [List.foldl]
    by_cases hx : x ∈ acc
    · rw [if_pos hx, ih]
      constructor
      · rintro (h | h)
        · exact Or.inl h
        · exact Or.inr (List.mem_cons_of_mem _ h)
      · rintro (h | h)
        · exact Or.inl h
        · rcases List.mem_cons.mp h with rfl | h
          · exact Or.inl hx
          · exact Or.inr h
    · rw [if_neg hx, ih]
      constructor
      · rintro (h | h)
        · rcases List.mem_append.mp h with h | h
          · exact Or.inl h
          · simp only [List.mem_singleton] at h
            exact Or.inr (h ▸ List.mem_cons_self _ _)
        · exact Or.inr (List.mem_cons_of_mem _ h)
      · rintro (h | h)
        · exact Or.inl (List.mem_append.mpr (Or.inl h))
        · rcases List.mem_cons.mp h with rfl | h
          · exact Or.inl (List.mem_append.mpr (Or.inr (List.mem_singleton.mpr rfl)))
          · exact Or.inr h

/-- `dedupKeepOrder` keeps lists duplicate-free. -/
theorem dedupKeepOrder_nodup (l : List String) : (dedupKeepOrder l).Nodup :=
  dedupAux_nodup l [] List.nodup_nil

/-- `dedupKeepOrder` has the same members as its input. -/
theorem dedupKeepOrder_mem (b : String) (l : List String) :
    b ∈ dedupKeepOrder l ↔ b ∈ l := by
  unfold dedupKeepOrder
  rw [dedupAux_mem]
  simp

/-- `dedupKeepOrder` is empty exactly on the empty list. -/
theorem dedupKeepOrder_eq_nil (l : List String) :
    dedupKeepOrder l = [] ↔ l = [] := by
  constructor
  · intro h
    cases hl : l with
    | nil => rfl
    | cons x xs =>
      exfalso
      have hx : x ∈ dedupKeepOrder l := by
        rw [dedupKeepOrder_mem, hl]; exact List.mem_cons_self _ _
      rw [h] at hx
      exact List.not_mem_nil _ hx
  · rintro rfl; rfl

/-! ## Claim C1 -/

/-- Claim C1 (code-bug evidence): on the page whose structured data carries
an offer price of 999 while its visible text contains "$50 off", the
computed price fact is the text-derived 50 — the extraction tags it source
"text", and the scorer's breakdown carries the same text-derived 50 while
re-labelling its source "schema".  It is not 999 sourced structured-data,
as the claim (and the extractor's own source labelling) requires: no
embedded function reads the offer object's price. -/
theorem c1_price_fact_is_text_derived_not_999 :
    offerPricePage.jsonLdScripts.map JsonLdObj.price = [some "999"] ∧
    strIncludes offerPricePage.title "$50 off" = true ∧
    (extractAllContentE offerPricePage).map
      (fun e => (e.price.value, e.price.source)) =
      Except.ok (some 50, some "text") ∧
    (calculateExtractabilityScoreE offerPricePage).map
      (fun r => (r.breakdown.pricing.price.value,
        r.breakdown.pricing.price.source, r.breakdown.pricing.price.points)) =
      Except.ok (some 50, some "schema", 12) := by
  refine ⟨rfl, rfl, ?_, ?_⟩ <;> rfl

/-! ## Claim C9 -/

/-- Claim C9 (code-bug evidence): the Artifact Generator embeds the page
title as the JSON-LD name and the extracted price 29.99 in the offer, but
feeding that JSON-LD back through the Fact Extractor recovers neither: the
extractor reads names from the page title and prices only from visible
text, and a page whose only signals are the generated structured data
yields name `none` and price `none`. -/
theorem c9_roundtrip_not_recovered :
    (generateProductSchemaFromPage roundTripSource).jsonLd =
      SchemaJson.product (some "Wireless Mouse")
        (some "A great wireless mouse with long battery life")
        "https://shop.example/products/mouse"
        (some "https://shop.example/img/mouse.jpg")
        (some { price := mkRat 2999 100, priceCurrency := "USD",
                availability := "https://schema.org/InStock" })
        none ∧
    (extractAllContentE roundTripFedBack).map
      (fun e => (e.productName.value, e.price.value)) =
      Except.ok (none, none) := by
  refine ⟨?_, ?_⟩ <;> rfl

/-! ## Claim C2 -/

/-- Claim C2 (code-bug evidence): aggregation over an empty page list never
returns a result, whatever the (missing) product-extractability scorer
does: either scoring the undefined first page fails, or control reaches
URL-type detection of the empty URL, whose parse fails. -/
theorem c2_aggregate_empty_page_list_fails (scorer : ProductScorer) :
    (aggregateResultsE scorer [] "shop.example" none none none []).isOk = false := by
  have key : ∀ o : Except String Nat,
      (Except.bind o (fun _ : Nat =>
        (Except.error ("TypeError: Invalid URL: " ++ "") :
          Except String AggregateLite))).isOk = false := by
    intro o
    cases o <;> rfl
  exact key (scorer none)

/-! ## Claim C7 -/

/-- Claim C7 (counterexample): a call-to-action phrase present only in the
page's visible body text is not detected — the extraction pipeline never
passes the body text to the detector, only the title, meta description and
H1 texts. -/
theorem c7_counterexample_body_text_not_scanned :
    (detectPurchaseCTA ctaBodyText).detected = true ∧
    (detectPurchaseCTA ctaBodyText).buttons = ["add to cart"] ∧
    (extractAllContentE ctaPage).map (fun e => e.purchaseCTA) =
      Except.ok { detected := false, buttons := [] } := by
  refine ⟨?_, ?_, ?_⟩ <;> rfl

/-- Claim C7 (amended): purchase-affordance detection substring-matches the
fixed call-to-action vocabulary over the concatenation of the page's title,
meta description and H1 texts — not the full visible body text, which never
reaches the detector — and the matched-phrase list is deduplicated: it is
duplicate-free, every entry is a vocabulary phrase contained in the
lowercased text, and the detected flag is exactly the non-emptiness of that
list. -/
theorem c7_amended_cta_over_title_meta_h1 (page : Page) (e : ContentExtraction)
    (h : extractAllContentE page = Except.ok e) :
    e.purchaseCTA = detectPurchaseCTA (allTextOf page) ∧
    e.purchaseCTA.buttons.Nodup ∧
    (∀ b ∈ e.purchaseCTA.buttons,
      b ∈ ctaPatterns ∧ strIncludes (lowerS (allTextOf page)) b = true) ∧
    (e.purchaseCTA.detected = true ↔ e.purchaseCTA.buttons ≠ []) := by
  obtain ⟨cat, rfl⟩ := extractAllContentE_ok_elim h
  have hcta : (extractAllContentCore page cat).purchaseCTA =
      detectPurchaseCTA (allTextOf page) := rfl
  refine ⟨hcta, ?_, ?_, ?_⟩
  · rw [hcta]
    exact dedupKeepOrder_nodup _
  · intro b hb
    rw [hcta] at hb
    unfold detectPurchaseCTA at hb
    simp only at hb
    rw [dedupKeepOrder_mem] at hb
    have := List.mem_filter.mp hb
    exact ⟨this.1, this.2⟩
  · rw [hcta]
    unfold detectPurchaseCTA
    simp only
    cases hf : ctaPatterns.filter
        (fun p => strIncludes (lowerS (allTextOf page)) p) with
    | nil => simp [hf, dedupKeepOrder]
    | cons x xs =>
      constructor
      · intro _ hnil
        have hx : x ∈ dedupKeepOrder (x :: xs) := by
          rw [dedupKeepOrder_mem]; exact List.mem_cons_self _ _
        rw [hnil] at hx
        exact List.not_mem_nil _ hx
      · intro _
        simp

/-- Claim C7 (amended, witness): on a concrete page whose title carries
"buy now" twice and "add to cart" once, the extraction's matched-button
list is duplicate-free. -/
theorem c7_amended_witness :
    ctaTitleExtraction.purchaseCTA.buttons.Nodup ∧
    ctaTitleExtraction.purchaseCTA.buttons = ["add to cart", "buy now"] := by
  have h := c7_amended_cta_over_title_meta_h1 ctaTitlePage ctaTitleExtraction rfl
  exact ⟨h.2.1, rfl⟩

/-! ## Claim C3 -/

/-- Identity leaves stay within their maxima and the category total is
their sum. -/
theorem identityOf_bounds (page : Page) (ext : ContentExtraction) :
    (identityOf page ext).productName.points ≤ (identityOf page ext).productName.max ∧
    (identityOf page ext).description.points ≤ (identityOf page ext).description.max ∧
    (identityOf page ext).category.points ≤ (identityOf page ext).category.max ∧
    (identityOf page ext).totalPoints =
      (identityOf page ext).productName.points +
        (identityOf page ext).description.points +
        (identityOf page ext).category.points := by
  refine ⟨?_, ?_, ?_, rfl⟩ <;>
    (unfold identityOf; (try dsimp only); first | (split_ifs <;> simp) | simp)

/-- Pricing leaves stay within their maxima and the category total is
their sum. -/
theorem pricingOf_bounds (page : Page) (ext : ContentExtraction) :
    (pricingOf page ext).price.points ≤ (pricingOf page ext).price.max ∧
    (pricingOf page ext).currency.points ≤ (pricingOf page ext).currency.max ∧
    (pricingOf page ext).totalPoints =
      (pricingOf page ext).price.points + (pricingOf page ext).currency.points := by
  refine ⟨?_, ?_, rfl⟩ <;>
    (unfold pricingOf; (try dsimp only); first | (split_ifs <;> simp) | simp)

/-- The availability leaf stays within its maximum. -/
theorem availabilityOf_bounds (page : Page) (ext : ContentExtraction) :
    (availabilityOf page ext).points ≤ (availabilityOf page ext).max := by
  unfold availabilityOf; (try dsimp only); first | (split_ifs <;> simp) | simp

/-- Review leaves stay within their maxima and the category total is
their sum. -/
theorem reviewsOf_bounds (page : Page) (ext : ContentExtraction) :
    (reviewsOf page ext).rating.points ≤ (reviewsOf page ext).rating.max ∧
    (reviewsOf page ext).count.points ≤ (reviewsOf page ext).count.max ∧
    (reviewsOf page ext).totalPoints =
      (reviewsOf page ext).rating.points + (reviewsOf page ext).count.points := by
  refine ⟨?_, ?_, rfl⟩ <;>
    (unfold reviewsOf
     rcases jsOrQ page.reviews.averageRating ext.rating.value with _ | v <;>
       (try dsimp only) <;> (first | (split_ifs <;> simp) | simp))

/-- The identifiers leaf stays within its maximum. -/
theorem identifiersOf_bounds (ids : Identifiers) :
    (identifiersOf ids).points ≤ (identifiersOf ids).max := by
  unfold identifiersOf; (try dsimp only); first | (split_ifs <;> simp) | simp

/-- The images leaf stays within its maximum. -/
theorem imagesOf_bounds (page : Page) (ext : ContentExtraction) :
    (imagesOf page ext).points ≤ (imagesOf page ext).max := by
  unfold imagesOf; (try dsimp only); first | (split_ifs <;> simp) | simp

/-- The specifications leaf stays within its maximum. -/
theorem specificationsOf_bounds (ext : ContentExtraction) :
    (specificationsOf ext).points ≤ (specificationsOf ext).max := by
  unfold specificationsOf; (try dsimp only); first | (split_ifs <;> simp) | simp

/-- The schema-bonus leaf stays within its maximum. -/
theorem schemaBonusOf_bounds (page : Page) :
    (schemaBonusOf page).points ≤ (schemaBonusOf page).max := by
  unfold schemaBonusOf; (try dsimp only); first | (split_ifs <;> simp) | simp

/-- The structural score invariants, for every input of the pure scoring
body: every breakdown leaf within its maximum, category totals equal to the
sums of their leaves, and the overall score equal to the category-total sum
capped at 100. -/
theorem calc_invariants (page : Page) (pt : PageType) (ext : ContentExtraction)
    (ids : Identifiers) (r : ExtractabilityScore)
    (hr : r = calcExtractability page pt ext ids) :
    r.score ≤ 100 ∧
    r.breakdown.identity.productName.points ≤ r.breakdown.identity.productName.max ∧
    r.breakdown.identity.description.points ≤ r.breakdown.identity.description.max ∧
    r.breakdown.identity.category.points ≤ r.breakdown.identity.category.max ∧
    r.breakdown.pricing.price.points ≤ r.breakdown.pricing.price.max ∧
    r.breakdown.pricing.currency.points ≤ r.breakdown.pricing.currency.max ∧
    r.breakdown.availability.points ≤ r.breakdown.availability.max ∧
    r.breakdown.reviews.rating.points ≤ r.breakdown.reviews.rating.max ∧
    r.breakdown.reviews.count.points ≤ r.breakdown.reviews.count.max ∧
    r.breakdown.identifiers.points ≤ r.breakdown.identifiers.max ∧
    r.breakdown.images.points ≤ r.breakdown.images.max ∧
    r.breakdown.specifications.points ≤ r.breakdown.specifications.max ∧
    r.breakdown.schemaBonus.points ≤ r.breakdown.schemaBonus.max ∧
    r.breakdown.identity.totalPoints =
      r.breakdown.identity.productName.points +
        r.breakdown.identity.description.points +
        r.breakdown.identity.category.points ∧
    r.breakdown.pricing.totalPoints =
      r.breakdown.pricing.price.points + r.breakdown.pricing.currency.points ∧
    r.breakdown.reviews.totalPoints =
      r.breakdown.reviews.rating.points + r.breakdown.reviews.count.points ∧
    r.score = min 100
      (r.breakdown.identity.totalPoints + r.breakdown.pricing.totalPoints +
        r.breakdown.availability.points + r.breakdown.reviews.totalPoints +
        r.breakdown.identifiers.points + r.breakdown.images.points +
        r.breakdown.specifications.points + r.breakdown.schemaBonus.points) := by
  subst hr
  cases pt
  case product =>
    exact ⟨Nat.min_le_left _ _,
      (identityOf_bounds page ext).1, (identityOf_bounds page ext).2.1,
      (identityOf_bounds page ext).2.2.1,
      (pricingOf_bounds page ext).1, (pricingOf_bounds page ext).2.1,
      availabilityOf_bounds page ext,
      (reviewsOf_bounds page ext).1, (reviewsOf_bounds page ext).2.1,
      identifiersOf_bounds ids, imagesOf_bounds page ext,
      specificationsOf_bounds ext, schemaBonusOf_bounds page,
      (identityOf_bounds page ext).2.2.2, (pricingOf_bounds page ext).2.2,
      (reviewsOf_bounds page ext).2.2, rfl⟩
  case collection =>
    exact ⟨Nat.min_le_left _ _,
      (identityOf_bounds page ext).1, (identityOf_bounds page ext).2.1,
      (identityOf_bounds page ext).2.2.1,
      (pricingOf_bounds page ext).1, (pricingOf_bounds page ext).2.1,
      availabilityOf_bounds page ext,
      (reviewsOf_bounds page ext).1, (reviewsOf_bounds page ext).2.1,
      identifiersOf_bounds ids, imagesOf_bounds page ext,
      specificationsOf_bounds ext, schemaBonusOf_bounds page,
      (identityOf_bounds page ext).2.2.2, (pricingOf_bounds page ext).2.2,
      (reviewsOf_bounds page ext).2.2, rfl⟩
  all_goals simp [calcExtractability]

/-- Claim C3: for every page the scorer accepts, in particular every page
classified product or collection, the score is between 0 and 100, every
breakdown leaf satisfies 0 ≤ points ≤ max, each category's totalPoints is
the sum of its leaf points, the overall score is the category-total sum
capped at 100, and re-running the scorer on the identical page yields the
identical result. -/
theorem c3_score_invariants (page : Page) (r : ExtractabilityScore)
    (h : calculateExtractabilityScoreE page = Except.ok r)
    (happ : r.breakdown.pageContext.detectedType = PageType.product ∨
      r.breakdown.pageContext.detectedType = PageType.collection) :
    (0 ≤ r.score ∧ r.score ≤ 100) ∧
    r.breakdown.identity.productName.points ≤ r.breakdown.identity.productName.max ∧
    r.breakdown.identity.description.points ≤ r.breakdown.identity.description.max ∧
    r.breakdown.identity.category.points ≤ r.breakdown.identity.category.max ∧
    r.breakdown.pricing.price.points ≤ r.breakdown.pricing.price.max ∧
    r.breakdown.pricing.currency.points ≤ r.breakdown.pricing.currency.max ∧
    r.breakdown.availability.points ≤ r.breakdown.availability.max ∧
    r.breakdown.reviews.rating.points ≤ r.breakdown.reviews.rating.max ∧
    r.breakdown.reviews.count.points ≤ r.breakdown.reviews.count.max ∧
    r.breakdown.identifiers.points ≤ r.breakdown.identifiers.max ∧
    r.breakdown.images.points ≤ r.breakdown.images.max ∧
    r.breakdown.specifications.points ≤ r.breakdown.specifications.max ∧
    r.breakdown.schemaBonus.points ≤ r.breakdown.schemaBonus.max ∧
    r.breakdown.identity.totalPoints =
      r.breakdown.identity.productName.points +
        r.breakdown.identity.description.points +
        r.breakdown.identity.category.points ∧
    r.breakdown.pricing.totalPoints =
      r.breakdown.pricing.price.points + r.breakdown.pricing.currency.points ∧
    r.breakdown.reviews.totalPoints =
      r.breakdown.reviews.rating.points + r.breakdown.reviews.count.points ∧
    r.score = min 100
      (r.breakdown.identity.totalPoints + r.breakdown.pricing.totalPoints +
        r.breakdown.availability.points + r.breakdown.reviews.totalPoints +
        r.breakdown.identifiers.points + r.breakdown.images.points +
        r.breakdown.specifications.points + r.breakdown.schemaBonus.points) ∧
    (∀ r2, calculateExtractabilityScoreE page = Except.ok r2 → r2 = r) := by
  obtain ⟨pt, ext, hr⟩ := scoreE_ok_elim h
  have hinv := calc_invariants page pt ext (extractIdentifiers page.jsonLdScripts) r hr
  have hdet : ∀ r2, calculateExtractabilityScoreE page = Except.ok r2 → r2 = r := by
    intro r2 h2
    rw [h] at h2
    exact (Except.ok.inj h2).symm
  exact ⟨⟨Nat.zero_le _, hinv.1⟩, hinv.2.1, hinv.2.2.1, hinv.2.2.2.1,
    hinv.2.2.2.2.1, hinv.2.2.2.2.2.1, hinv.2.2.2.2.2.2.1,
    hinv.2.2.2.2.2.2.2.1, hinv.2.2.2.2.2.2.2.2.1,
    hinv.2.2.2.2.2.2.2.2.2.1, hinv.2.2.2.2.2.2.2.2.2.2.1,
    hinv.2.2.2.2.2.2.2.2.2.2.2.1, hinv.2.2.2.2.2.2.2.2.2.2.2.2.1,
    hinv.2.2.2.2.2.2.2.2.2.2.2.2.2.1, hinv.2.2.2.2.2.2.2.2.2.2.2.2.2.2.1,
    hinv.2.2.2.2.2.2.2.2.2.2.2.2.2.2.2.1,
    hinv.2.2.2.2.2.2.2.2.2.2.2.2.2.2.2.2, hdet⟩

set_option maxRecDepth 4000 in
/-- Claim C3 (witness): on the concrete product page, the scorer succeeds
and the invariants hold — in particular the score is at most 100 and equals
the capped category-total sum. -/
theorem c3_witness :
    (calcExtractability witnessScorePage PageType.product {}
      (extractIdentifiers witnessScorePage.jsonLdScripts)).score ≤ 100 ∧
    (calcExtractability witnessScorePage PageType.product {}
      (extractIdentifiers witnessScorePage.jsonLdScripts)).score = 24 := by
  have h := c3_score_invariants witnessScorePage
    (calcExtractability witnessScorePage PageType.product {}
      (extractIdentifiers witnessScorePage.jsonLdScripts))
    rfl (Or.inl (by decide))
  exact ⟨h.1.2, by decide⟩

/-! ## Claim C4 -/

/-- Claim C4: for every page whose resolved type is neither product nor
collection, the scorer returns score exactly 0 with label "N/A", the
breakdown marks `pageContext.isApplicable = false`, and the page context
carries the human-readable not-applicable reason string. -/
theorem c4_non_applicable_pages_score_zero (page : Page) (r : ExtractabilityScore)
    (h : calculateExtractabilityScoreE page = Except.ok r)
    (h1 : r.breakdown.pageContext.detectedType ≠ PageType.product)
    (h2 : r.breakdown.pageContext.detectedType ≠ PageType.collection) :
    r.score = 0 ∧ r.label = "N/A" ∧
    r.breakdown.pageContext.isApplicable = false ∧
    r.breakdown.pageContext.reason =
      some (naReason r.breakdown.pageContext.detectedType) := by
  obtain ⟨pt, ext, rfl⟩ := scoreE_ok_elim h
  rw [calc_detectedType] at h1 h2 ⊢
  cases pt
  · exact absurd rfl h1
  · exact absurd rfl h2
  all_goals exact ⟨rfl, rfl, rfl, rfl⟩

/-- Claim C4 (witness): the concrete blog page scores 0 with label "N/A",
an inapplicable context and the reason string. -/
theorem c4_witness :
    (calcExtractability witnessBlogPage PageType.blog {}
      (extractIdentifiers witnessBlogPage.jsonLdScripts)).score = 0 ∧
    (calcExtractability witnessBlogPage PageType.blog {}
      (extractIdentifiers witnessBlogPage.jsonLdScripts)).label = "N/A" := by
  have h := c4_non_applicable_pages_score_zero witnessBlogPage
    (calcExtractability witnessBlogPage PageType.blog {}
      (extractIdentifiers witnessBlogPage.jsonLdScripts))
    rfl (by decide) (by decide)
  exact ⟨h.1, h.2.1⟩

/-! ## Claim C5 -/

/-- Claim C5: page classification is a deterministic first-match-wins
function of the URL path and the partial schema flags, in the priority
order homepage, cart, search, blog (segment or article flag), product
(URL pattern or product flag), collection, other; in particular a
blog-segment path wins over the product flag, and the product flag wins
over a collection-pattern path on non-blog URLs. -/
theorem c5_classifier_first_match_priority (pathname : String) (schemas : Schemas) :
    (homepageCond (lowerS pathname) = true →
      detectPageTypeFromPath pathname schemas = PageType.homepage) ∧
    (homepageCond (lowerS pathname) = false → cartCond (lowerS pathname) = true →
      detectPageTypeFromPath pathname schemas = PageType.cart) ∧
    (homepageCond (lowerS pathname) = false → cartCond (lowerS pathname) = false →
      searchCond (lowerS pathname) = true →
      detectPageTypeFromPath pathname schemas = PageType.search) ∧
    (homepageCond (lowerS pathname) = false → cartCond (lowerS pathname) = false →
      searchCond (lowerS pathname) = false →
      blogCond (lowerS pathname) schemas = true →
      detectPageTypeFromPath pathname schemas = PageType.blog) ∧
    (homepageCond (lowerS pathname) = false → cartCond (lowerS pathname) = false →
      searchCond (lowerS pathname) = false →
      blogCond (lowerS pathname) schemas = false →
      productCond (lowerS pathname) schemas = true →
      detectPageTypeFromPath pathname schemas = PageType.product) ∧
    (homepageCond (lowerS pathname) = false → cartCond (lowerS pathname) = false →
      searchCond (lowerS pathname) = false →
      blogCond (lowerS pathname) schemas = false →
      productCond (lowerS pathname) schemas = false →
      collectionPatternTest (lowerS pathname) = true →
      detectPageTypeFromPath pathname schemas = PageType.collection) ∧
    (homepageCond (lowerS pathname) = false → cartCond (lowerS pathname) = false →
      searchCond (lowerS pathname) = false →
      blogCond (lowerS pathname) schemas = false →
      productCond (lowerS pathname) schemas = false →
      collectionPatternTest (lowerS pathname) = false →
      detectPageTypeFromPath pathname schemas = PageType.other) ∧
    (homepageCond (lowerS pathname) = false → cartCond (lowerS pathname) = false →
      searchCond (lowerS pathname) = false →
      blogSegCond (lowerS pathname) = true → schemas.hasProductSchema = true →
      detectPageTypeFromPath pathname schemas = PageType.blog) ∧
    (homepageCond (lowerS pathname) = false → cartCond (lowerS pathname) = false →
      searchCond (lowerS pathname) = false →
      blogCond (lowerS pathname) schemas = false →
      schemas.hasProductSchema = true →
      collectionPatternTest (lowerS pathname) = true →
      detectPageTypeFromPath pathname schemas = PageType.product) := by
  refine ⟨?_, ?_, ?_, ?_, ?_, ?_, ?_, ?_, ?_⟩ <;>
    intros <;>
    simp_all only [detectPageTypeFromPath, homepageCond, cartCond, searchCond,
      blogCond, blogSegCond, productCond, Bool.or_eq_true, Bool.or_eq_false_iff,
      Bool.false_eq_true, or_false, false_or, if_true, if_false] <;>
    simp_all <;>
    (try (intro hpt hps
          rcases ‹productPatternTest (lowerS pathname) = true ∨
            schemas.hasProductSchema = true› with h | h <;> simp_all))

/-- Claim C5 (witness): on the concrete path "/blog/great-product" with the
product flag set the classifier answers blog, and on "/category/shoes" with
the product flag set it answers product. -/
theorem c5_witness :
    detectPageTypeFromPath "/blog/great-product" { hasProductSchema := true } =
      PageType.blog ∧
    detectPageTypeFromPath "/category/shoes" { hasProductSchema := true } =
      PageType.product := by
  constructor
  · exact (c5_classifier_first_match_priority "/blog/great-product"
      { hasProductSchema := true }).2.2.2.2.2.2.2.1
      (by decide) (by decide) (by decide) (by decide) (by decide)
  · exact (c5_classifier_first_match_priority "/category/shoes"
      { hasProductSchema := true }).2.2.2.2.2.2.2.2
      (by decide) (by decide) (by decide) (by decide) (by decide) (by decide)

/-! ## Claim C8 -/

/-- Claim C8 (counterexample): `generateSchemaForPage` emits an FAQPage
snippet whose missing-field list is empty and whose confidence is
nonetheless "low" — not the "high" the 0-missing-fields rule demands. -/
theorem c8_counterexample_faq_low_with_zero_missing :
    (generateSchemaForPageE faqPage).map
      (fun l => l.map (fun s => (s.stype, s.fieldsMissing.length, s.confidence))) =
      Except.ok [("BreadcrumbList", 0, "high"), ("FAQPage", 0, "low")] ∧
    confidenceOfMissing 0 = "high" := by
  refine ⟨?_, ?_⟩ <;> rfl

/-- Claim C8 (amended): every snippet emitted by `generateSchemaForPage`
carries its generator's own confidence — a Product snippet's confidence is
determined by its missing-field count through the 0-missing/at-most-2
tier rule, a BreadcrumbList snippet is always "high" with no missing
fields, and an FAQPage snippet is always the hardcoded "low" even though
its missing-field list is empty. -/
theorem c8_amended_confidence_tiers (page : Page) (out : List GeneratedSchema)
    (h : generateSchemaForPageE page = Except.ok out) :
    ∀ s ∈ out,
      (s.stype = "Product" ∧
        s.confidence = confidenceOfMissing s.fieldsMissing.length) ∨
      (s.stype = "BreadcrumbList" ∧ s.confidence = "high" ∧
        s.fieldsMissing = []) ∨
      (s.stype = "FAQPage" ∧ s.confidence = "low" ∧
        s.fieldsMissing = []) := by
  unfold generateSchemaForPageE at h
  cases hb : generateBreadcrumbSchemaFromPageE page with
  | error e =>
    rw [hb] at h
    exact absurd h (by simp [bind, Except.bind])
  | ok ob =>
    rw [hb] at h
    simp only [bind, Except.bind, pure, Except.pure, Except.ok.injEq] at h
    subst h
    intro s hs
    rcases List.mem_append.mp hs with hs1 | hsf
    · rcases List.mem_append.mp hs1 with hsp | hsb
      · left
        split at hsp
        · have hse : s = generateProductSchemaFromPage page := by simpa using hsp
          subst hse
          exact ⟨rfl, rfl⟩
        · simp at hsp
      · right; left
        cases ob with
        | none => simp at hsb
        | some bs =>
          have hse : s = bs := by simpa using hsb
          subst hse
          exact breadcrumbE_ok_some hb
    · right; right
      split at hsf
      · cases hf : generateFAQSchemaFromPage page with
        | none => rw [hf] at hsf; simp at hsf
        | some fs =>
          rw [hf] at hsf
          have hse : s = fs := by simpa using hsf
          subst hse
          exact faqSchema_some hf
      · simp at hsf

set_option maxRecDepth 10000 in
/-- Claim C8 (amended, witness): the FAQPage snippet generated for the
concrete FAQ page carries the hardcoded "low" confidence and an empty
missing-field list. -/
theorem c8_amended_witness :
    faqPageSnippet.stype = "FAQPage" ∧ faqPageSnippet.confidence = "low" ∧
    faqPageSnippet.fieldsMissing = [] := by
  have h := c8_amended_confidence_tiers faqPage faqPageSchemasList rfl
  rcases h faqPageSnippet (by decide) with ⟨h1, _⟩ | ⟨h1, _⟩ | hok
  · exact absurd h1 (by decide)
  · exact absurd h1 (by decide)
  · exact hok

/-! ## Claim C6 -/

/-- Claim C6: identifier points are awarded by the single highest-value
identifier only, never additively — a truthy GTIN gives 10, else a truthy
MPN gives 7, else a truthy SKU gives 5, else 0; for every scored
applicable page with both a gtin and an mpn present in its structured
data, the identifier points are exactly 10, not 17. -/
theorem c6_identifier_tiers_not_additive (page : Page) (r : ExtractabilityScore)
    (h : calculateExtractabilityScoreE page = Except.ok r)
    (happ : r.breakdown.pageContext.detectedType = PageType.product ∨
      r.breakdown.pageContext.detectedType = PageType.collection)
    (hg : ∃ o ∈ page.jsonLdScripts, truthyOS o.gtin = true)
    (hm : ∃ o ∈ page.jsonLdScripts, truthyOS o.mpn = true) :
    r.breakdown.identifiers.points = 10 ∧
    r.breakdown.identifiers.points ≠ 17 ∧
    (∀ ids : Identifiers, truthyOS ids.gtin = true →
      (identifiersOf ids).points = 10) ∧
    (∀ ids : Identifiers, truthyOS ids.gtin = false → truthyOS ids.mpn = true →
      (identifiersOf ids).points = 7) ∧
    (∀ ids : Identifiers, truthyOS ids.gtin = false → truthyOS ids.mpn = false →
      truthyOS ids.sku = true → (identifiersOf ids).points = 5) ∧
    (∀ ids : Identifiers, truthyOS ids.gtin = false → truthyOS ids.mpn = false →
      truthyOS ids.sku = false → (identifiersOf ids).points = 0) := by
  obtain ⟨pt, ext, rfl⟩ := scoreE_ok_elim h
  rw [calc_detectedType] at happ
  have hgt := extractIdentifiers_gtin page.jsonLdScripts hg
  have hmt := extractIdentifiers_mpn page.jsonLdScripts hm
  have hpts :
      (calcExtractability page pt ext
        (extractIdentifiers page.jsonLdScripts)).breakdown.identifiers.points
        = 10 := by
    rcases happ with h1 | h1 <;> subst h1 <;>
      simp [calcExtractability, identifiersOf, hgt]
  refine ⟨hpts, ?_, ?_, ?_, ?_, ?_⟩
  · rw [hpts]; decide
  · intro ids hi; simp [identifiersOf, hi]
  · intro ids h1 h2; simp [identifiersOf, h1, h2]
  · intro ids h1 h2 h3; simp [identifiersOf, h1, h2, h3]
  · intro ids h1 h2 h3; simp [identifiersOf, h1, h2, h3]

/-- Claim C6 (witness): the concrete page carrying both a gtin and an mpn
in its structured data scores exactly 10 identifier points. -/
theorem c6_witness :
    (calcExtractability gtinMpnPage PageType.product {}
      (extractIdentifiers gtinMpnPage.jsonLdScripts)).breakdown.identifiers.points
      = 10 := by
  have h := c6_identifier_tiers_not_additive gtinMpnPage
    (calcExtractability gtinMpnPage PageType.product {}
      (extractIdentifiers gtinMpnPage.jsonLdScripts))
    rfl (Or.inl (by decide)) (by decide) (by decide)
  exact h.1

/-! ## Claim C10 -/

/-- Claim C10: for every applicable page without a precomputed extraction
whose structured data carries an offer object but whose title, meta
description and H1 texts match no text price pattern, the pricing
category scores 0 points — the schema tier additionally requires a
text-extracted price — and the offer objects' own price fields are never
read: replacing every offer price leaves the whole scorer output
unchanged. -/
theorem c10_offer_price_never_read (page : Page) (v : Option String)
    (r : ExtractabilityScore)
    (hce : page.contentExtraction = none)
    (h : calculateExtractabilityScoreE page = Except.ok r)
    (happ : r.breakdown.pageContext.detectedType = PageType.product ∨
      r.breakdown.pageContext.detectedType = PageType.collection)
    (hoffer : page.schemas.hasOfferSchema = true)
    (hnp : extractPriceFromText (allTextOf page) = none) :
    r.breakdown.pricing.totalPoints = 0 ∧
    r.breakdown.pricing.price.points = 0 ∧
    r.breakdown.pricing.currency.points = 0 ∧
    calculateExtractabilityScoreE (setOfferPrice page v) =
      calculateExtractabilityScoreE page := by
  obtain ⟨pt, cat, rfl⟩ := scoreE_ok_elim_extracted hce h
  rw [calc_detectedType] at happ
  have hval : (extractAllContentCore page cat).price.value = none := by
    simp [extractAllContentCore, hnp]
  have hcur : (extractAllContentCore page cat).price.currency = none := by
    simp [extractAllContentCore, hnp]
  have hzero :
      (pricingOf page (extractAllContentCore page cat)).totalPoints = 0 ∧
      (pricingOf page (extractAllContentCore page cat)).price.points = 0 ∧
      (pricingOf page (extractAllContentCore page cat)).currency.points = 0 := by
    refine ⟨?_, ?_, ?_⟩ <;> simp [pricingOf, hval, hcur, truthyOQ, truthyOS]
  have hids : extractIdentifiers (setOfferPrice page v).jsonLdScripts =
      extractIdentifiers page.jsonLdScripts := by
    show ((page.jsonLdScripts.map (fun o => { o with price := v })).foldl
        idStep {}) = page.jsonLdScripts.foldl idStep {}
    exact foldl_idStep_map_price v page.jsonLdScripts {}
  have hcalc : ∀ (pt2 : PageType) (ext2 : ContentExtraction) (ids2 : Identifiers),
      calcExtractability (setOfferPrice page v) pt2 ext2 ids2 =
        calcExtractability page pt2 ext2 ids2 := by
    intro pt2 ext2 ids2
    cases pt2 <;> rfl
  have hinv : calculateExtractabilityScoreE (setOfferPrice page v) =
      calculateExtractabilityScoreE page := by
    unfold calculateExtractabilityScoreE
    simp only [show (setOfferPrice page v).pageType = page.pageType from rfl,
      show (setOfferPrice page v).contentExtraction = page.contentExtraction from
        rfl,
      show (setOfferPrice page v).url = page.url from rfl,
      show (setOfferPrice page v).schemas = page.schemas from rfl,
      show extractAllContentE (setOfferPrice page v) = extractAllContentE page
        from rfl,
      hids, hcalc]
  rcases happ with h1 | h1 <;> subst h1 <;>
    exact ⟨hzero.1, hzero.2.1, hzero.2.2, hinv⟩

/-- Claim C10 (witness): the concrete offer-schema page without a text
price scores 0 pricing points, and replacing its offer price leaves the
scorer output unchanged. -/
theorem c10_witness :
    ((calcExtractability offerNoTextPricePage PageType.product
      (extractAllContentCore offerNoTextPricePage (some "products", some "url"))
      (extractIdentifiers
        offerNoTextPricePage.jsonLdScripts)).breakdown.pricing.totalPoints
      = 0) ∧
    calculateExtractabilityScoreE (setOfferPrice offerNoTextPricePage (some "1"))
      = calculateExtractabilityScoreE offerNoTextPricePage := by
  have h := c10_offer_price_never_read offerNoTextPricePage (some "1")
    (calcExtractability offerNoTextPricePage PageType.product
      (extractAllContentCore offerNoTextPricePage (some "products", some "url"))
      (extractIdentifiers offerNoTextPricePage.jsonLdScripts))
    rfl rfl (Or.inl (by decide)) rfl rfl
  exact ⟨h.1, h.2.2.2⟩

end LVO
